import Mathlib

/-!
Shallow embedding of the istio control-plane core covered by the spec:

* `PodCache` — the pod/node topology cache
  (galley/pkg/config/processor/transforms/serviceentry/pod/cache.go).
* `ClusterBuild` — the cluster builder
  (pilot networking v1alpha3 ClusterBuilder: applyDestinationRule,
  buildDefaultCluster, maybeApplyEdsConfig, defaultTrafficPolicy).
* `Ads` — the per-(connection, resource-type) push-session state machine.
  The session-manager source is not part of the provided sources; it is
  modelled from the spec (sections 4.3 and 5).
* `Configdump` — GetDynamicClusterDump
  (istioctl/pkg/util/configdump/cluster.go).

Go maps are modelled as association lists keyed by strings; map iteration
order, which Go leaves unspecified, becomes list order.  Fallible or
side-effecting code is given in state-passing style: each handler returns
the new state together with the list of listener notifications (resp.
diagnostic metrics, resp. pushes) it emitted, in emission order.
-/

namespace SpecProof

/-! ## Association-list primitives (model of Go map read / write / delete) -/

/-- Go map read `m[k]`: value of the first entry with key `k`, if any. -/
def assocLookup {α : Type} : List (String × α) → String → Option α
  | [], _ => none
  | (k', v) :: rest, k => if k' = k then some v else assocLookup rest k

/-- Go map write `m[k] = v`: replace the entry for `k` in place, or append. -/
def assocUpsert {α : Type} : List (String × α) → String → α → List (String × α)
  | [], k, v => [(k, v)]
  | (k', v') :: rest, k, v =>
    if k' = k then (k, v) :: rest else (k', v') :: assocUpsert rest k v

/-- Go map delete `delete(m, k)`: drop the entries with key `k`. -/
def assocErase {α : Type} : List (String × α) → String → List (String × α)
  | [], _ => []
  | (k', v') :: rest, k =>
    if k' = k then assocErase rest k else (k', v') :: assocErase rest k

namespace PodCache

/-! ## Pod cache (cache.go) -/

/-- k8s well known label (cache.go `LabelZoneRegion`). -/
def LabelZoneRegion : String := "failure-domain.beta.kubernetes.io/region"

/-- k8s well known label (cache.go `LabelZoneFailureDomain`). -/
def LabelZoneFailureDomain : String := "failure-domain.beta.kubernetes.io/zone"

/-- Info for a Pod (cache.go `Info`).  `labels` is the pod label map as an
association list; Go's `reflect.DeepEqual` on `Info` becomes `=`. -/
structure Info where
  ip : String
  fullName : String
  labels : List (String × String)
  locality : String
  serviceAccountName : String
  nodeName : String
deriving DecidableEq

/-- A listener callback invocation (cache.go `Listener`).  The cache calls
`PodAdded` / `PodUpdated` / `PodDeleted`; we record the calls in order. -/
inductive Notification where
  | podAdded (info : Info)
  | podUpdated (info : Info)
  | podDeleted (info : Info)
deriving DecidableEq

/-- The pod phase values of `coreV1.PodPhase` used by `handlePod`. -/
inductive PodPhase where
  | pending
  | running
  | succeeded
  | failed
  | unknown
deriving DecidableEq

/-- The fields of a `coreV1.Pod` read by `handlePod`. -/
structure PodPayload where
  statusPodIP : String
  statusPhase : PodPhase
  specNodeName : String
  specServiceAccountName : String
  podNamespace : String
  podLabels : List (String × String)
deriving DecidableEq

/-- The event sources dispatched on by `Handle` (`metadata.K8SCoreV1Nodes`,
`metadata.K8SCoreV1Pods`, anything else). -/
inductive Source where
  | k8sNodes
  | k8sPods
  | other
deriving DecidableEq

/-- The `event.Kind` values used by the cache. -/
inductive EventKind where
  | added
  | updated
  | deleted
deriving DecidableEq

/-- The parts of `event.Event.Entry` the cache reads: the metadata name
(namespace and name rendered as one string; nodes have no namespace), the
metadata labels, and the typed item — `some` when `e.Entry.Item` parses as a
`*coreV1.Pod`, `none` when it was unavailable or failed parsing. -/
structure ResourceEntry where
  name : String
  metadataLabels : List (String × String)
  item : Option PodPayload
deriving DecidableEq

/-- An `event.Event` as consumed by `cacheImpl.Handle`. -/
structure Event where
  source : Source
  kind : EventKind
  entry : ResourceEntry
deriving DecidableEq

/-- The mutable state of `cacheImpl`: the pod map keyed by IP and the
node-name-to-locality index. -/
structure CacheState where
  pods : List (String × Info)
  nodeNameToLocality : List (String × String)
deriving DecidableEq

/-- The state `NewCache` starts from: both maps empty. -/
def emptyCache : CacheState := ⟨[], []⟩

/-- cache.go `getLocality`: `"region/zone"`, or `""` when both are empty. -/
def getLocality (region zone : String) : String :=
  if region = "" ∧ zone = "" then "" else region ++ "/" ++ zone

/-- Modelled from the spec: `kubeToIstioServiceAccount` calls
`spiffe.MustGenSpiffeURI`, whose source is not provided; the spec only calls
the result the pod's "service-account identity".  No claim depends on the
format, only on the value being a function of (service account, namespace). -/
def kubeToIstioServiceAccount (saname ns : String) : String :=
  "spiffe://cluster.local/ns/" ++ ns ++ "/sa/" ++ saname

/-- cache.go `GetPodByIP`. -/
def GetPodByIP (s : CacheState) (ip : String) : Option Info :=
  assocLookup s.pods ip

/-- cache.go `updatePod`: store the pod keyed by IP unless it is identical to
the stored record; notify `PodUpdated` when a record existed, `PodAdded`
otherwise. -/
def updatePod (s : CacheState) (pod : Info) : CacheState × List Notification :=
  match assocLookup s.pods pod.ip with
  | some prevPod =>
    if prevPod = pod then (s, [])
    else ({ s with pods := assocUpsert s.pods pod.ip pod }, [.podUpdated pod])
  | none =>
    ({ s with pods := assocUpsert s.pods pod.ip pod }, [.podAdded pod])

/-- cache.go `deletePod`: remove the record stored under `ip`, if any, and
notify `PodDeleted` with the removed record. -/
def deletePod (s : CacheState) (ip : String) : CacheState × List Notification :=
  match assocLookup s.pods ip with
  | some pod => ({ s with pods := assocErase s.pods ip }, [.podDeleted pod])
  | none => (s, [])

/-- The loop body of cache.go `updatePodLocality`: walk the pod map; rewrite
the locality of every pod bound to `nodeName`, collecting the rewritten
records in iteration order. -/
def updatePodsOnNode (nodeName locality : String) :
    List (String × Info) → List (String × Info) × List Info
  | [] => ([], [])
  | (ip, pod) :: rest =>
    let (rest', updated) := updatePodsOnNode nodeName locality rest
    if pod.nodeName = nodeName then
      let pod' := { pod with locality := locality }
      ((ip, pod') :: rest', pod' :: updated)
    else ((ip, pod) :: rest', updated)

/-- cache.go `updatePodLocality`: rewrite the locality of the pods bound to
`nodeName` and emit one `PodUpdated` per rewritten pod. -/
def updatePodLocality (s : CacheState) (nodeName locality : String) :
    CacheState × List Notification :=
  let (pods', updatedPods) := updatePodsOnNode nodeName locality s.pods
  ({ s with pods := pods' }, updatedPods.map .podUpdated)

/-- cache.go `handleNode`.  Added/Updated: recompute the locality from the
node's region/zone labels; when it differs from the stored one (a missing
index entry reads as `""`, the Go map zero value) update the index and fan
out to the bound pods.  Deleted: if the node is indexed, drop it and fan out
the empty locality. -/
def handleNode (s : CacheState) (e : Event) : CacheState × List Notification :=
  let nodeName := e.entry.name
  match e.kind with
  | .added | .updated =>
    let labels := e.entry.metadataLabels
    let region := (assocLookup labels LabelZoneRegion).getD ""
    let zone := (assocLookup labels LabelZoneFailureDomain).getD ""
    let newLocality := getLocality region zone
    let oldLocality := (assocLookup s.nodeNameToLocality nodeName).getD ""
    if newLocality = oldLocality then (s, [])
    else
      let s' := { s with
        nodeNameToLocality :=
          assocUpsert s.nodeNameToLocality nodeName (getLocality region zone) }
      updatePodLocality s' nodeName newLocality
  | .deleted =>
    match assocLookup s.nodeNameToLocality nodeName with
    | some _ =>
      let s' := { s with nodeNameToLocality := assocErase s.nodeNameToLocality nodeName }
      updatePodLocality s' nodeName ""
    | none => (s, [])

/-- The `Info` record `handlePod` builds for a running/pending pod: the
locality comes from the node index at the time of the event. -/
def podInfoOf (s : CacheState) (fullName : String) (p : PodPayload) : Info :=
  { ip := p.statusPodIP
    fullName := fullName
    nodeName := p.specNodeName
    locality := (assocLookup s.nodeNameToLocality p.specNodeName).getD ""
    labels := p.podLabels
    serviceAccountName :=
      kubeToIstioServiceAccount p.specServiceAccountName p.podNamespace }

/-- cache.go `handlePod`.  Added/Updated: drop the event while the pod has no
IP; upsert for Pending/Running phases, delete for the others.  Deleted: take
the IP from the payload when it parsed, otherwise scan the stored records for
one whose full name matches the event's name (`""`, never a key, when none
matches), then delete.  (On Added/Updated the Go code type-asserts the item
without an `ok` guard; an unparsed item on that path is outside the modelled
behaviour and is mapped to a no-op.) -/
def handlePod (s : CacheState) (e : Event) : CacheState × List Notification :=
  match e.kind with
  | .added | .updated =>
    match e.entry.item with
    | none => (s, [])
    | some pod =>
      let ip := pod.statusPodIP
      if ip = "" then (s, [])
      else
        match pod.statusPhase with
        | .pending | .running => updatePod s (podInfoOf s e.entry.name pod)
        | _ => deletePod s ip
  | .deleted =>
    let ip := match e.entry.item with
      | some pod => pod.statusPodIP
      | none =>
        match s.pods.find? (fun q => q.2.fullName = e.entry.name) with
        | some q => q.1
        | none => ""
    deletePod s ip

/-- cache.go `Handle`: dispatch on the event source. -/
def Handle (s : CacheState) (e : Event) : CacheState × List Notification :=
  match e.source with
  | .k8sNodes => handleNode s e
  | .k8sPods => handlePod s e
  | .other => (s, [])

/-- Apply one event and keep only the state. -/
def applyEvent (s : CacheState) (e : Event) : CacheState :=
  (Handle s e).1

/-- The state reached from the empty cache by a sequence of events. -/
def applyEvents (es : List Event) : CacheState :=
  es.foldl applyEvent emptyCache

/-- The cache-consistency invariant: every stored pod's locality equals the
node index entry for its node (the empty string when the node is absent). -/
def LocalityInv (s : CacheState) : Prop :=
  ∀ ip info, (ip, info) ∈ s.pods →
    info.locality = (assocLookup s.nodeNameToLocality info.nodeName).getD ""

/-- A node Added/Updated event whose metadata labels carry region `r` and
zone `z`. -/
def nodeUpdateEvent (nodeName r z : String) : Event :=
  { source := .k8sNodes
    kind := .updated
    entry :=
      { name := nodeName
        metadataLabels := [(LabelZoneRegion, r), (LabelZoneFailureDomain, z)]
        item := none } }

end PodCache

namespace ClusterBuild

/-! ## Cluster builder (pilot v1alpha3 ClusterBuilder) -/

/-- The discovery types of `apiv2.Cluster_DiscoveryType`. -/
inductive DiscoveryType where
  | STATIC
  | STRICT_DNS
  | LOGICAL_DNS
  | EDS
  | ORIGINAL_DST
deriving DecidableEq

/-- Render a discovery type the way `discoveryType.String()` does. -/
def DiscoveryType.str : DiscoveryType → String
  | .STATIC => "STATIC"
  | .STRICT_DNS => "STRICT_DNS"
  | .LOGICAL_DNS => "LOGICAL_DNS"
  | .EDS => "EDS"
  | .ORIGINAL_DST => "ORIGINAL_DST"

/-- The `model.TrafficDirection` values; only the outbound direction is exercised here. -/
inductive TrafficDirection where
  | outbound
  | inbound
deriving DecidableEq

/-- Render a traffic direction for cluster names. -/
def TrafficDirection.str : TrafficDirection → String
  | .outbound => "outbound"
  | .inbound => "inbound"

/-- A protobuf duration (`types.Duration`). -/
structure DurationPB where
  seconds : Int
  nanos : Int
deriving DecidableEq

/-- The simple load-balancer policies of
`networking.LoadBalancerSettings_SimpleLB` used by the builder. -/
inductive SimpleLBPolicy where
  | ROUND_ROBIN
  | LEAST_CONN
  | RANDOM
  | PASSTHROUGH
deriving DecidableEq

/-- The `networking.LoadBalancerSettings` message restricted to the simple policy, the
only shape the provided source constructs. -/
structure LoadBalancerSettings where
  simple : SimpleLBPolicy
deriving DecidableEq

/-- The `networking.ConnectionPoolSettings_TCPSettings` message; only `ConnectTimeout`
is set by the provided source. -/
structure TCPSettings where
  connectTimeout : Option DurationPB
deriving DecidableEq

/-- The `networking.ConnectionPoolSettings` message. -/
structure ConnectionPoolSettings where
  tcp : Option TCPSettings
deriving DecidableEq

/-- The `networking.TrafficPolicy` message.  Outlier detection and TLS settings are
carried opaquely (the compiler moves whole policy objects around and never
inspects these fields in the provided source), so each is an abstract
payload. -/
structure TrafficPolicy where
  loadBalancer : Option LoadBalancerSettings := none
  connectionPool : Option ConnectionPoolSettings := none
  outlierDetection : Option Nat := none
  tls : Option Nat := none
deriving DecidableEq

/-- Modelled from the spec: `DefaultLbType` is declared outside the provided
source; the spec calls it the process-wide default load-balancing policy. -/
def DefaultLbType : SimpleLBPolicy := .ROUND_ROBIN

/-- The mesh-config fields the builder reads (`cb.push.Mesh`). -/
structure MeshConfig where
  connectTimeout : DurationPB
  dnsRefreshRate : DurationPB
deriving DecidableEq

/-- An endpoint of the service, carrying the pod labels the subset selector
is matched against. -/
structure LbEndpoint where
  address : String
  endpointLabels : List (String × String)
deriving DecidableEq

/-- An `endpoint.LocalityLbEndpoints` message: one locality group of endpoints. -/
structure LocalityLbEndpoints where
  locality : String
  lbEndpoints : List LbEndpoint
deriving DecidableEq

/-- An `apiv2.ClusterLoadAssignment` message: the inline endpoint set of a cluster. -/
structure ClusterLoadAssignment where
  clusterName : String
  endpoints : List LocalityLbEndpoints
deriving DecidableEq

/-- An `apiv2.Cluster_EdsClusterConfig` message: the EDS delegation marker.
`edsSourceAds` records that `EdsConfig.ConfigSourceSpecifier` is the ADS
(aggregated) source. -/
structure EdsClusterConfig where
  serviceName : String
  edsSourceAds : Bool
deriving DecidableEq

/-- An `apiv2.Cluster`, restricted to the fields the provided source writes.
`appliedPolicy` stands for the cluster fields `applyTrafficPolicy` resolves
from the active policy object (see `applyTrafficPolicy` below); stat-name,
upstream-protocol and metadata decoration are set by helpers outside the
provided source and are omitted. -/
structure Cluster where
  name : String
  clusterDiscoveryType : DiscoveryType
  dnsLookupFamilyV4 : Bool := false
  dnsRefreshRate : Option DurationPB := none
  respectDnsTtl : Bool := false
  loadAssignment : Option ClusterLoadAssignment := none
  edsClusterConfig : Option EdsClusterConfig := none
  appliedPolicy : Option TrafficPolicy := none
deriving DecidableEq

/-- A `networking.Subset` of a destination rule. -/
structure Subset where
  name : String
  subsetLabels : List (String × String)
  trafficPolicy : Option TrafficPolicy
deriving DecidableEq

/-- A `networking.DestinationRule`: rule-level traffic policy and subsets. -/
structure DestinationRule where
  trafficPolicy : Option TrafficPolicy := none
  subsets : List Subset := []
deriving DecidableEq

/-- The package-level `defaultDestinationRule` (empty rule). -/
def defaultDestinationRule : DestinationRule := {}

/-- cluster_builder `castDestinationRuleOrDefault`. -/
def castDestinationRuleOrDefault : Option DestinationRule → DestinationRule
  | some dr => dr
  | none => defaultDestinationRule

/-- The `ClusterMode` of the builder. -/
inductive ClusterMode where
  | DefaultClusterMode
  | SniDnatClusterMode
deriving DecidableEq

/-- A recorded diagnostic metric (`push.AddMetric`). -/
structure PushMetric where
  metricName : String
  clusterName : String
  message : String
deriving DecidableEq

/-- The metric `buildDefaultCluster` records when it rejects an
inline-endpoint cluster with no endpoints (`model.DNSNoEndpointClusters`). -/
def dnsNoEndpointMetric (discoveryType : DiscoveryType) (name : String) : PushMetric :=
  { metricName := "DNSNoEndpointClusters"
    clusterName := name
    message := discoveryType.str ++ " cluster without endpoints " ++ name
      ++ " found while pushing CDS" }

/-- Modelled from the spec: `model.BuildSubsetKey` is declared outside the
provided source; the spec fixes the name to a pure function of (direction,
subset name or empty, host, port), with the shape shown in its end-to-end
scenario `outbound|80|v1|svc`. -/
def BuildSubsetKey (direction : TrafficDirection) (subsetName hostname : String)
    (port : Nat) : String :=
  direction.str ++ "|" ++ toString port ++ "|" ++ subsetName ++ "|" ++ hostname

/-- Modelled from the spec: `model.BuildDNSSrvSubsetKey` is declared outside
the provided source; a deterministic DNS-SRV-style variant of the subset
name used for SNI-DNAT clusters and SNI values. -/
def BuildDNSSrvSubsetKey (direction : TrafficDirection) (subsetName hostname : String)
    (port : Nat) : String :=
  direction.str ++ "_." ++ toString port ++ "_." ++ subsetName ++ "_." ++ hostname

/-- Modelled from the spec: subset label matching — the subset's endpoint set
is "filtered to members matching the subset's labels".  A selector matches
when every selector pair occurs in the endpoint's labels. -/
def labelsMatch (selector podLabels : List (String × String)) : Bool :=
  selector.all (fun kv => assocLookup podLabels kv.1 = some kv.2)

/-- Modelled from the spec: `buildLocalityLbEndpoints` is declared outside
the provided source.  It resolves the service's endpoints restricted to the
given label selectors; an empty result stays empty (locality grouping is
orthogonal to every claim and is collapsed to one group). -/
def buildLocalityLbEndpoints (serviceEndpoints : List LbEndpoint)
    (selectors : List (List (String × String))) : List LocalityLbEndpoints :=
  let filtered := serviceEndpoints.filter
    (fun ep => selectors.any (fun sel => labelsMatch sel ep.endpointLabels))
  if filtered.isEmpty then [] else [{ locality := "", lbEndpoints := filtered }]

/-- cluster_builder `defaultTrafficPolicy`: the default policy for a
discovery type — passthrough load balancing for `ORIGINAL_DST`, the default
LB type otherwise, plus the mesh connect timeout. -/
def defaultTrafficPolicy (mesh : MeshConfig) (discoveryType : DiscoveryType) :
    TrafficPolicy :=
  let lbPolicy := if discoveryType = .ORIGINAL_DST then SimpleLBPolicy.PASSTHROUGH
    else DefaultLbType
  let timeout : DurationPB :=
    { seconds := mesh.connectTimeout.seconds, nanos := mesh.connectTimeout.nanos }
  { loadBalancer := some { simple := lbPolicy }
    connectionPool := some { tcp := some { connectTimeout := some timeout } } }

/-- Modelled from the spec: `applyTrafficPolicy` is declared outside the
provided source.  Per the spec's policy-resolution contract, each application
of a present policy "fully replac[es] the active policy object" on the
cluster, and a policy is applied only "if present" — an absent policy leaves
the cluster untouched. -/
def applyTrafficPolicy (cluster : Cluster) (policy : Option TrafficPolicy) : Cluster :=
  match policy with
  | none => cluster
  | some p => { cluster with appliedPolicy := some p }

/-- cluster_builder `maybeApplyEdsConfig`: on an EDS cluster attach the EDS
delegation config — `ServiceName` is the cluster's own name, resolved over
ADS; any other discovery type is returned unchanged.  (The Go switch is over
the `ClusterDiscoveryType` interface; every cluster built here carries the
`Cluster_Type` variant, the only case of that switch.) -/
def maybeApplyEdsConfig (cluster : Cluster) : Cluster :=
  match cluster.clusterDiscoveryType with
  | .EDS =>
    { cluster with edsClusterConfig := some { serviceName := cluster.name, edsSourceAds := true } }
  | _ => cluster

/-- The body of the `STATIC` arm of `buildDefaultCluster`'s switch (also
reached from `STRICT_DNS` by fallthrough): reject an empty endpoint list
with one diagnostic metric, else attach the inline load assignment. -/
def inlineEndpointsOrReject (cluster : Cluster) (name : String)
    (discoveryType : DiscoveryType)
    (localityLbEndpoints : List LocalityLbEndpoints) :
    Option Cluster × List PushMetric :=
  if localityLbEndpoints.length = 0 then
    (none, [dnsNoEndpointMetric discoveryType name])
  else
    (some { cluster with
      loadAssignment := some { clusterName := name, endpoints := localityLbEndpoints } }, [])

/-- cluster_builder `buildDefaultCluster`: create the cluster shell for the
discovery type; `STRICT_DNS` sets the DNS fields and falls through to the
`STATIC` empty-endpoint check; on success apply the default traffic policy
for the discovery type.  `direction`, `port` and `meshExternal` feed only
the (modelled) policy application and are kept for signature fidelity. -/
def buildDefaultCluster (mesh : MeshConfig) (name : String)
    (discoveryType : DiscoveryType)
    (localityLbEndpoints : List LocalityLbEndpoints)
    (direction : TrafficDirection) (port : Option Nat) (meshExternal : Bool) :
    Option Cluster × List PushMetric :=
  let cluster : Cluster := { name := name, clusterDiscoveryType := discoveryType }
  let (built, metrics) :=
    match discoveryType with
    | .STRICT_DNS =>
      let cluster := { cluster with
        dnsLookupFamilyV4 := true
        dnsRefreshRate := some mesh.dnsRefreshRate
        respectDnsTtl := true }
      inlineEndpointsOrReject cluster name discoveryType localityLbEndpoints
    | .STATIC =>
      inlineEndpointsOrReject cluster name discoveryType localityLbEndpoints
    | _ => (some cluster, [])
  match built with
  | none => (none, metrics)
  | some c =>
    (some (applyTrafficPolicy c (some (defaultTrafficPolicy mesh discoveryType))), metrics)

/-- The per-subset loop body of `applyDestinationRule`: name the subset
cluster by mode, resolve inline endpoints when the main cluster is not EDS
and the subset has labels, build the subset cluster with the main cluster's
discovery type, then layer the destination-rule policy and — when present —
the subset policy on top, and finally attach the EDS config if needed.
Returns `none` (plus the diagnostics) when `buildDefaultCluster` rejected
the subset cluster; the caller's loop then continues with the next subset. -/
def applySubset (mesh : MeshConfig) (serviceEndpoints : List LbEndpoint)
    (cluster : Cluster) (drPolicy : Option TrafficPolicy)
    (clusterMode : ClusterMode) (hostname : String) (portNum : Nat)
    (meshExternal : Bool) (subset : Subset) : Option Cluster × List PushMetric :=
  let subsetClusterName := match clusterMode with
    | .DefaultClusterMode => BuildSubsetKey .outbound subset.name hostname portNum
    | .SniDnatClusterMode => BuildDNSSrvSubsetKey .outbound subset.name hostname portNum
  let lbEndpoints : List LocalityLbEndpoints :=
    if cluster.clusterDiscoveryType ≠ .EDS ∧ subset.subsetLabels ≠ [] then
      buildLocalityLbEndpoints serviceEndpoints [subset.subsetLabels]
    else []
  match buildDefaultCluster mesh subsetClusterName cluster.clusterDiscoveryType
      lbEndpoints .outbound none meshExternal with
  | (none, ms) => (none, ms)
  | (some subsetCluster, ms) =>
    let subsetCluster := applyTrafficPolicy subsetCluster drPolicy
    let subsetCluster := match subset.trafficPolicy with
      | some sp => applyTrafficPolicy subsetCluster (some sp)
      | none => subsetCluster
    (some (maybeApplyEdsConfig subsetCluster), ms)

/-- The subset loop of `applyDestinationRule`: a rejected subset cluster is
skipped (its diagnostics kept) and the remaining subsets still compile. -/
def applySubsetList (mesh : MeshConfig) (serviceEndpoints : List LbEndpoint)
    (cluster : Cluster) (drPolicy : Option TrafficPolicy)
    (clusterMode : ClusterMode) (hostname : String) (portNum : Nat)
    (meshExternal : Bool) : List Subset → List Cluster × List PushMetric
  | [] => ([], [])
  | subset :: rest =>
    let (cs, ms) := applySubsetList mesh serviceEndpoints cluster drPolicy
      clusterMode hostname portNum meshExternal rest
    match applySubset mesh serviceEndpoints cluster drPolicy clusterMode
        hostname portNum meshExternal subset with
    | (none, m) => (cs, m ++ ms)
    | (some c, m) => (c :: cs, m ++ ms)

/-- cluster_builder `applyDestinationRule`: apply the destination-rule
traffic policy to the main cluster, attach its EDS config if needed, then
build one subset cluster per subset of the rule.  Returns the (mutated)
main cluster, the subset clusters in order, and the diagnostics. -/
def applyDestinationRule (mesh : MeshConfig) (serviceEndpoints : List LbEndpoint)
    (destRule : Option DestinationRule) (cluster : Cluster)
    (clusterMode : ClusterMode) (hostname : String) (portNum : Nat)
    (meshExternal : Bool) : Cluster × List Cluster × List PushMetric :=
  let destinationRule := castDestinationRuleOrDefault destRule
  let mainCluster := applyTrafficPolicy cluster destinationRule.trafficPolicy
  let mainCluster := maybeApplyEdsConfig mainCluster
  let (subsetClusters, metrics) := applySubsetList mesh serviceEndpoints mainCluster
    destinationRule.trafficPolicy clusterMode hostname portNum meshExternal
    destinationRule.subsets
  (mainCluster, subsetClusters, metrics)

/-- The compile of one service+port in default mode, as contracted by the
spec (section 4.2): build the default cluster for the service's discovery
type and resolved endpoints, then apply the destination rule; the result is
the default cluster followed by the subset clusters (the callers of the two
provided functions are outside the provided source; this wiring follows the
spec's `compile` contract and the functions' own doc comments). -/
def compileServicePort (mesh : MeshConfig) (serviceEndpoints : List LbEndpoint)
    (allLocalityEndpoints : List LocalityLbEndpoints)
    (destRule : Option DestinationRule) (discoveryType : DiscoveryType)
    (hostname : String) (portNum : Nat) (meshExternal : Bool) :
    List Cluster × List PushMetric :=
  let defaultName := BuildSubsetKey .outbound "" hostname portNum
  match buildDefaultCluster mesh defaultName discoveryType allLocalityEndpoints
      .outbound (some portNum) meshExternal with
  | (none, ms) => ([], ms)
  | (some c, ms) =>
    let (mainCluster, subsetClusters, ms') := applyDestinationRule mesh
      serviceEndpoints destRule c .DefaultClusterMode hostname portNum meshExternal
    (mainCluster :: subsetClusters, ms ++ ms')

end ClusterBuild

namespace Ads

/-! ## Push-session protocol state machine

Modelled from the spec: the session-manager source is not among the provided
files (only its test-side client helpers are), so the per-(connection,
resource-type) state machine is built from the spec's transition list
(section 4.3) and flow-control rules (sections 3 and 5). -/

/-- A pushed `DiscoveryResponse`, reduced to its version and nonce. -/
structure Push where
  versionInfo : String
  nonce : String
deriving DecidableEq

/-- The fields of a client `DiscoveryRequest` the state machine reads. -/
structure Request where
  responseNonce : String
  versionInfo : String
  hasErrorDetail : Bool
deriving DecidableEq

/-- Modelled from the spec: the per-(connection, resource-type) session
state — last accepted version, the outstanding (unacknowledged) push if any,
whether configuration changed since that push was sent, the current
configuration version, a nonce counter, and the NACK diagnostic count. -/
structure SessionState where
  acceptedVersion : Option String := none
  outstanding : Option Push := none
  pendingChange : Bool := false
  configVersion : Nat := 0
  nonceCounter : Nat := 0
  nackCount : Nat := 0
deriving DecidableEq

/-- The session state created on first contact for a type. -/
def initialSession : SessionState := {}

/-- The inputs driving one session: a client request on the stream, or an
externally triggered configuration change fanned out by the registry. -/
inductive SessionEvent where
  | request (r : Request)
  | configChanged
deriving DecidableEq

/-- Compile the current configuration and push it: assign a version
identifier for the current configuration and a fresh nonce, record the push
as outstanding, and clear the changed-since-push flag. -/
def sendPush (s : SessionState) : SessionState × List Push :=
  let push : Push :=
    { versionInfo := toString s.configVersion, nonce := toString (s.nonceCounter + 1) }
  ({ s with
      outstanding := some push
      pendingChange := false
      nonceCounter := s.nonceCounter + 1 }, [push])

/-- Modelled from the spec: one transition of the session state machine.

* Configuration change: while a push is outstanding, only mark the change —
  flow control forbids a second push; otherwise push immediately.
* Request acknowledging the outstanding nonce without error detail (ACK):
  accept the pushed version; push again exactly when configuration changed
  since the push was sent.
* Request carrying the outstanding nonce with error detail (NACK): keep the
  previously accepted version, count the rejection, do not retry.
* Request not referring to the outstanding push while one is outstanding:
  the spec's state machine leaves `AwaitingAck` only through ACK/NACK
  (its stale-nonce rule describes a fresh post-reconnect session); ignored.
* Request with no push outstanding: an empty nonce is an initial request
  and is answered with a push; a stale nonce is a reconnect probe — no push
  when the client's reported version is the accepted one, a fresh push
  otherwise; error detail without an outstanding push is ignored. -/
def stepSession (s : SessionState) : SessionEvent → SessionState × List Push
  | .configChanged =>
    let s := { s with configVersion := s.configVersion + 1 }
    match s.outstanding with
    | some _ => ({ s with pendingChange := true }, [])
    | none => sendPush s
  | .request r =>
    match s.outstanding with
    | some p =>
      if r.responseNonce = p.nonce then
        if r.hasErrorDetail then
          ({ s with outstanding := none, nackCount := s.nackCount + 1 }, [])
        else
          let s := { s with acceptedVersion := some p.versionInfo, outstanding := none }
          if s.pendingChange then sendPush s else (s, [])
      else (s, [])
    | none =>
      if r.hasErrorDetail then (s, [])
      else if r.responseNonce = "" then sendPush s
      else if s.acceptedVersion = some r.versionInfo then (s, [])
      else sendPush s

end Ads

namespace Configdump

/-! ## Config dump (istioctl configdump/cluster.go) -/

/-- Lexicographic strict order on character lists: the model of Go's `<` on
strings (byte-wise lexicographic comparison). -/
def charListLt : List Char → List Char → Bool
  | [], [] => false
  | [], _ :: _ => true
  | _ :: _, [] => false
  | a :: as, b :: bs =>
    if a < b then true else if b < a then false else charListLt as bs

/-- Go string comparison `a < b`. -/
def strLt (a b : String) : Bool := charListLt a.data b.data

/-- The total preorder induced by the sort's less function `a < b`:
`a` may precede `b` exactly when `¬ (b < a)`. -/
def nameLe (a b : String) : Prop := strLt b a = false

instance (a b : String) : Decidable (nameLe a b) := by
  unfold nameLe; infer_instance

/-- The `Cluster` payload inside a dumped entry; only `Name` is read, the
rest of the message rides along opaquely. -/
structure ClusterRecord where
  name : String
  rest : String
deriving DecidableEq

/-- A `ClustersConfigDump_DynamicCluster` entry: a dynamic active cluster entry with
its version info and last-updated timestamp (`none` models a nil
timestamp). -/
structure DynamicCluster where
  cluster : ClusterRecord
  versionInfo : String
  lastUpdated : Option Nat
deriving DecidableEq

/-- The `adminapi.ClustersConfigDump` message, restricted to the dynamic active cluster
list that `GetDynamicClusterDump` reads and rebuilds. -/
structure ClustersConfigDump where
  dynamicActiveClusters : List DynamicCluster
deriving DecidableEq

/-- The comparison `sort.Slice` is given: entry order by cluster name. -/
def dumpLe (a b : DynamicCluster) : Prop := nameLe a.cluster.name b.cluster.name

instance (a b : DynamicCluster) : Decidable (dumpLe a b) := by
  unfold dumpLe; infer_instance

/-- Strip one entry: clear `VersionInfo`, drop `LastUpdated`. -/
def stripVersionOf (c : DynamicCluster) : DynamicCluster :=
  { c with versionInfo := "", lastUpdated := none }

/-- configdump/cluster.go `GetDynamicClusterDump`: take the cluster config
dump (or propagate its error), sort the dynamic active clusters ascending by
cluster name, strip versions and timestamps when asked, and return a dump
holding just those entries.  `sort.Slice` leaves the algorithm (and the
order of entries with equal names) unspecified; it is modelled as an
insertion sort over the induced total preorder. -/
def GetDynamicClusterDump (dump : Except String ClustersConfigDump)
    (stripVersions : Bool) : Except String ClustersConfigDump :=
  match dump with
  | .error e => .error e
  | .ok clusterDump =>
    let dac := List.insertionSort dumpLe clusterDump.dynamicActiveClusters
    let dac := if stripVersions then dac.map stripVersionOf else dac
    .ok { dynamicActiveClusters := dac }

end Configdump

/-! ## Association-list lemmas -/

theorem assocLookup_upsert_self {α : Type} (l : List (String × α)) (k : String) (v : α) :
    assocLookup (assocUpsert l k v) k = some v := by
  induction l with
  | nil => simp [assocUpsert, assocLookup]
  | cons p rest ih =>
    obtain ⟨k', v'⟩ := p
    by_cases h : k' = k
    · simp [assocUpsert, h, assocLookup]
    · simp [assocUpsert, h, assocLookup, ih]

theorem assocLookup_upsert_ne {α : Type} (l : List (String × α)) (k k' : String) (v : α)
    (h : k' ≠ k) : assocLookup (assocUpsert l k v) k' = assocLookup l k' := by
  induction l with
  | nil => simp [assocUpsert, assocLookup, Ne.symm h]
  | cons p rest ih =>
    obtain ⟨a, b⟩ := p
    by_cases ha : a = k
    · subst ha
      simp [assocUpsert, assocLookup, Ne.symm h]
    · simp [assocUpsert, ha, assocLookup, ih]

theorem mem_assocUpsert {α : Type} {l : List (String × α)} {k : String} {v : α}
    {p : String × α} (h : p ∈ assocUpsert l k v) : p = (k, v) ∨ p ∈ l := by
  induction l with
  | nil => simpa [assocUpsert] using h
  | cons q rest ih =>
    obtain ⟨a, b⟩ := q
    by_cases ha : a = k
    · simp only [assocUpsert, if_pos ha, List.mem_cons] at h
      rcases h with h | h
      · exact Or.inl h
      · exact Or.inr (List.mem_cons_of_mem _ h)
    · simp only [assocUpsert, if_neg ha, List.mem_cons] at h
      rcases h with h | h
      · exact Or.inr (h ▸ List.mem_cons_self _ _)
      · rcases ih h with h2 | h2
        · exact Or.inl h2
        · exact Or.inr (List.mem_cons_of_mem _ h2)

theorem assocLookup_erase_self {α : Type} (l : List (String × α)) (k : String) :
    assocLookup (assocErase l k) k = none := by
  induction l with
  | nil => simp [assocErase, assocLookup]
  | cons p rest ih =>
    obtain ⟨a, b⟩ := p
    by_cases ha : a = k
    · simp [assocErase, ha, ih]
    · simp [assocErase, assocLookup, ha, ih]

theorem assocLookup_erase_ne {α : Type} (l : List (String × α)) (k k' : String)
    (h : k' ≠ k) : assocLookup (assocErase l k) k' = assocLookup l k' := by
  induction l with
  | nil => simp [assocErase]
  | cons p rest ih =>
    obtain ⟨a, b⟩ := p
    by_cases ha : a = k
    · subst ha
      simp [assocErase, assocLookup, Ne.symm h, ih]
    · simp [assocErase, assocLookup, ha, ih]

theorem mem_assocErase {α : Type} {l : List (String × α)} {k : String}
    {p : String × α} (h : p ∈ assocErase l k) : p ∈ l := by
  induction l with
  | nil => simp [assocErase] at h
  | cons q rest ih =>
    obtain ⟨a, b⟩ := q
    by_cases ha : a = k
    · simp only [assocErase, if_pos ha] at h
      exact List.mem_cons_of_mem _ (ih h)
    · simp only [assocErase, if_neg ha, List.mem_cons] at h
      rcases h with h | h
      · exact h ▸ List.mem_cons_self _ _
      · exact List.mem_cons_of_mem _ (ih h)

theorem assocLookup_of_mem_nodup {α : Type} {l : List (String × α)} {k : String} {v : α}
    (hnd : (l.map Prod.fst).Nodup) (h : (k, v) ∈ l) : assocLookup l k = some v := by
  induction l with
  | nil => simp at h
  | cons q rest ih =>
    obtain ⟨a, b⟩ := q
    simp only [List.map_cons, List.nodup_cons] at hnd
    rcases List.mem_cons.mp h with h | h
    · obtain ⟨rfl, rfl⟩ : k = a ∧ v = b := Prod.mk.injEq _ _ _ _ |>.mp h
      simp [assocLookup]
    · have hak : a ≠ k := by
        intro e
        exact hnd.1 (e ▸ List.mem_map_of_mem Prod.fst h)
      simp [assocLookup, hak, ih hnd.2 h]

namespace PodCache

/-! ## Pod-cache lemmas -/

theorem updatePodsOnNode_eq (nodeName locality : String) (l : List (String × Info)) :
    updatePodsOnNode nodeName locality l =
      (l.map (fun q =>
          if q.2.nodeName = nodeName then (q.1, { q.2 with locality := locality }) else q),
       (l.filter (fun q => decide (q.2.nodeName = nodeName))).map
         (fun q => { q.2 with locality := locality })) := by
  induction l with
  | nil => simp [updatePodsOnNode]
  | cons q rest ih =>
    obtain ⟨ip, pod⟩ := q
    by_cases h : pod.nodeName = nodeName
    · simp [updatePodsOnNode, ih, h]
    · simp [updatePodsOnNode, ih, h]

theorem region_label_lookup (r z : String) :
    assocLookup [(LabelZoneRegion, r), (LabelZoneFailureDomain, z)] LabelZoneRegion
      = some r := by
  simp [assocLookup]

theorem zone_label_lookup (r z : String) :
    assocLookup [(LabelZoneRegion, r), (LabelZoneFailureDomain, z)] LabelZoneFailureDomain
      = some z := by
  simp [assocLookup, LabelZoneRegion, LabelZoneFailureDomain]

/-- Claim C2: a node-update event carrying region `r` and zone `z` whose
locality string `getLocality r z` equals the stored locality of the node
(the empty string when the node is unindexed) changes nothing and fires no
notification; otherwise the node index is updated and exactly one
`PodUpdated` fires per stored pod bound to that node, each carrying the new
locality string. -/
theorem handleNode_update_propagation (s : CacheState) (N r z : String) :
    (getLocality r z = (assocLookup s.nodeNameToLocality N).getD "" →
      Handle s (nodeUpdateEvent N r z) = (s, [])) ∧
    (getLocality r z ≠ (assocLookup s.nodeNameToLocality N).getD "" →
      Handle s (nodeUpdateEvent N r z) =
        ({ pods := s.pods.map (fun q =>
              if q.2.nodeName = N then (q.1, { q.2 with locality := getLocality r z }) else q)
           nodeNameToLocality := assocUpsert s.nodeNameToLocality N (getLocality r z) },
         (s.pods.filter (fun q => decide (q.2.nodeName = N))).map
           (fun q => .podUpdated { q.2 with locality := getLocality r z }))) := by
  constructor
  · intro h
    simp [Handle, nodeUpdateEvent, handleNode, region_label_lookup, zone_label_lookup, h]
  · intro h
    simp [Handle, nodeUpdateEvent, handleNode, region_label_lookup, zone_label_lookup, h,
      updatePodLocality, updatePodsOnNode_eq]

/-- Witness for C2: a node with two bound pods and one foreign pod — the
update fires exactly two `PodUpdated`, one per bound pod, with the new
locality; re-sending the same locality fires none. -/
theorem handleNode_update_propagation_witness :
    (Handle
        ⟨[("10.0.0.1", ⟨"10.0.0.1", "ns/p1", [], "", "sa1", "n1"⟩),
          ("10.0.0.2", ⟨"10.0.0.2", "ns/p2", [], "", "sa2", "n1"⟩),
          ("10.0.0.3", ⟨"10.0.0.3", "ns/p3", [], "", "sa3", "n2"⟩)], []⟩
        (nodeUpdateEvent "n1" "us-east" "1a") =
      (⟨[("10.0.0.1", ⟨"10.0.0.1", "ns/p1", [], "us-east/1a", "sa1", "n1"⟩),
         ("10.0.0.2", ⟨"10.0.0.2", "ns/p2", [], "us-east/1a", "sa2", "n1"⟩),
         ("10.0.0.3", ⟨"10.0.0.3", "ns/p3", [], "", "sa3", "n2"⟩)],
        [("n1", "us-east/1a")]⟩,
       [.podUpdated ⟨"10.0.0.1", "ns/p1", [], "us-east/1a", "sa1", "n1"⟩,
        .podUpdated ⟨"10.0.0.2", "ns/p2", [], "us-east/1a", "sa2", "n1"⟩])) ∧
    (Handle ⟨[], [("n1", "us-east/1a")]⟩ (nodeUpdateEvent "n1" "us-east" "1a") =
      (⟨[], [("n1", "us-east/1a")]⟩, [])) := by
  constructor
  · have h := (handleNode_update_propagation
      ⟨[("10.0.0.1", ⟨"10.0.0.1", "ns/p1", [], "", "sa1", "n1"⟩),
        ("10.0.0.2", ⟨"10.0.0.2", "ns/p2", [], "", "sa2", "n1"⟩),
        ("10.0.0.3", ⟨"10.0.0.3", "ns/p3", [], "", "sa3", "n2"⟩)], []⟩
      "n1" "us-east" "1a").2 (by decide)
    rw [h]
    decide
  · have h := (handleNode_update_propagation
      ⟨[], [("n1", "us-east/1a")]⟩ "n1" "us-east" "1a").1 (by decide)
    rw [h]

theorem updatePod_nodeIndex (s : CacheState) (pod : Info) :
    (updatePod s pod).1.nodeNameToLocality = s.nodeNameToLocality := by
  cases h : assocLookup s.pods pod.ip with
  | none => simp [updatePod, h]
  | some prev =>
    by_cases hp : prev = pod <;> simp [updatePod, h, hp]

theorem deletePod_nodeIndex (s : CacheState) (ip : String) :
    (deletePod s ip).1.nodeNameToLocality = s.nodeNameToLocality := by
  cases h : assocLookup s.pods ip with
  | none => simp [deletePod, h]
  | some pod => simp [deletePod, h]

theorem podInfoOf_congr {s s' : CacheState}
    (h : s.nodeNameToLocality = s'.nodeNameToLocality) (fullName : String)
    (p : PodPayload) : podInfoOf s fullName p = podInfoOf s' fullName p := by
  simp [podInfoOf, h]

theorem updatePod_lookup_self (s : CacheState) (pod : Info) :
    assocLookup (updatePod s pod).1.pods pod.ip = some pod := by
  cases h : assocLookup s.pods pod.ip with
  | none => simp [updatePod, h, assocLookup_upsert_self]
  | some prev =>
    by_cases hp : prev = pod
    · simp [updatePod, h, hp]
    · simp [updatePod, h, hp, assocLookup_upsert_self]

theorem updatePod_twice (s : CacheState) (pod : Info) :
    updatePod (updatePod s pod).1 pod = ((updatePod s pod).1, []) := by
  have h := updatePod_lookup_self s pod
  revert h
  generalize (updatePod s pod).1 = t
  intro h
  simp [updatePod, h]

theorem deletePod_twice (s : CacheState) (ip : String) :
    deletePod (deletePod s ip).1 ip = ((deletePod s ip).1, []) := by
  cases h : assocLookup s.pods ip with
  | none => simp [deletePod, h]
  | some pod => simp [deletePod, h, assocLookup_erase_self]

/-- Claim C5: `updatePod` is idempotent — an incoming record identical to
the stored one changes nothing and fires no notification; otherwise the
record is stored and exactly one notification fires, `PodAdded` when no
record was stored under the IP and `PodUpdated` when one was; and applying
the same pod-added event twice leaves the state of the first application
unchanged and fires nothing the second time. -/
theorem updatePod_idempotent (s : CacheState) (pod : Info) (e : Event) :
    (assocLookup s.pods pod.ip = some pod → updatePod s pod = (s, [])) ∧
    (assocLookup s.pods pod.ip = none →
      updatePod s pod =
        ({ s with pods := assocUpsert s.pods pod.ip pod }, [.podAdded pod])) ∧
    (∀ prev, assocLookup s.pods pod.ip = some prev → prev ≠ pod →
      updatePod s pod =
        ({ s with pods := assocUpsert s.pods pod.ip pod }, [.podUpdated pod])) ∧
    (e.source = .k8sPods → e.kind = .added →
      Handle (Handle s e).1 e = ((Handle s e).1, [])) := by
  refine ⟨?_, ?_, ?_, ?_⟩
  · intro h
    simp [updatePod, h]
  · intro h
    simp [updatePod, h]
  · intro prev h hne
    simp [updatePod, h, hne]
  · intro hs hk
    cases hi : e.entry.item with
    | none => simp [Handle, hs, handlePod, hk, hi]
    | some p =>
      by_cases hip : p.statusPodIP = ""
      · simp [Handle, hs, handlePod, hk, hi, hip]
      · cases hph : p.statusPhase with
        | pending =>
          simp only [Handle, hs, handlePod, hk, hi, hph, if_neg hip]
          rw [podInfoOf_congr (updatePod_nodeIndex s (podInfoOf s e.entry.name p))
            e.entry.name p]
          exact updatePod_twice s (podInfoOf s e.entry.name p)
        | running =>
          simp only [Handle, hs, handlePod, hk, hi, hph, if_neg hip]
          rw [podInfoOf_congr (updatePod_nodeIndex s (podInfoOf s e.entry.name p))
            e.entry.name p]
          exact updatePod_twice s (podInfoOf s e.entry.name p)
        | succeeded =>
          simp only [Handle, hs, handlePod, hk, hi, hph, if_neg hip]
          exact deletePod_twice s p.statusPodIP
        | failed =>
          simp only [Handle, hs, handlePod, hk, hi, hph, if_neg hip]
          exact deletePod_twice s p.statusPodIP
        | unknown =>
          simp only [Handle, hs, handlePod, hk, hi, hph, if_neg hip]
          exact deletePod_twice s p.statusPodIP

/-- Witness for C5: adding a fresh pod stores it and fires one `PodAdded`;
replaying the same pod-added event is a silent no-op. -/
theorem updatePod_idempotent_witness :
    (updatePod ⟨[], []⟩ ⟨"10.0.0.5", "ns/p", [], "", "sa", "n1"⟩ =
      (⟨[("10.0.0.5", ⟨"10.0.0.5", "ns/p", [], "", "sa", "n1"⟩)], []⟩,
       [.podAdded ⟨"10.0.0.5", "ns/p", [], "", "sa", "n1"⟩])) ∧
    (Handle
        (Handle ⟨[], []⟩
          ⟨.k8sPods, .added, ⟨"ns/p", [], some ⟨"10.0.0.5", .running, "n1", "sa", "ns", []⟩⟩⟩).1
        ⟨.k8sPods, .added, ⟨"ns/p", [], some ⟨"10.0.0.5", .running, "n1", "sa", "ns", []⟩⟩⟩ =
      ((Handle ⟨[], []⟩
          ⟨.k8sPods, .added, ⟨"ns/p", [], some ⟨"10.0.0.5", .running, "n1", "sa", "ns", []⟩⟩⟩).1,
       [])) := by
  constructor
  · have h := (updatePod_idempotent ⟨[], []⟩ ⟨"10.0.0.5", "ns/p", [], "", "sa", "n1"⟩
      ⟨.k8sPods, .added, ⟨"ns/p", [], none⟩⟩).2.1 (by decide)
    rw [h]
    decide
  · exact (updatePod_idempotent ⟨[], []⟩ ⟨"10.0.0.5", "ns/p", [], "", "sa", "n1"⟩
      ⟨.k8sPods, .added, ⟨"ns/p", [], some ⟨"10.0.0.5", .running, "n1", "sa", "ns", []⟩⟩⟩).2.2.2
      rfl rfl

/-- Claim C8: a pod Added/Updated event with an empty IP is dropped (no
state change, no notification); a later event carrying an assigned IP not
yet stored, in a running/pending phase, is treated as an add — the record is
stored under the IP and exactly one `PodAdded` fires. -/
theorem handlePod_empty_ip (s : CacheState) (e : Event) (p : PodPayload)
    (hs : e.source = .k8sPods) (hi : e.entry.item = some p) :
    ((e.kind = .added ∨ e.kind = .updated) → p.statusPodIP = "" →
      Handle s e = (s, [])) ∧
    ((e.kind = .added ∨ e.kind = .updated) → p.statusPodIP ≠ "" →
      (p.statusPhase = .pending ∨ p.statusPhase = .running) →
      assocLookup s.pods p.statusPodIP = none →
      Handle s e =
        ({ s with pods := assocUpsert s.pods p.statusPodIP (podInfoOf s e.entry.name p) },
         [.podAdded (podInfoOf s e.entry.name p)])) := by
  constructor
  · rintro (hk | hk) hip <;> simp [Handle, hs, handlePod, hk, hi, hip]
  · rintro (hk | hk) hip (hph | hph) hlook <;>
      simp [Handle, hs, handlePod, hk, hi, hip, hph, updatePod, hlook, podInfoOf]

/-- Witness for C8: the first event (no IP yet) is dropped; the follow-up
event with the assigned IP fires one `PodAdded` and stores the record. -/
theorem handlePod_empty_ip_witness :
    (Handle ⟨[], []⟩
        ⟨.k8sPods, .added, ⟨"ns/p", [], some ⟨"", .pending, "n1", "sa", "ns", []⟩⟩⟩ =
      (⟨[], []⟩, [])) ∧
    (Handle ⟨[], []⟩
        ⟨.k8sPods, .updated, ⟨"ns/p", [], some ⟨"10.0.0.7", .pending, "n1", "sa", "ns", []⟩⟩⟩ =
      (⟨[("10.0.0.7",
          ⟨"10.0.0.7", "ns/p", [], "", "spiffe://cluster.local/ns/ns/sa/sa", "n1"⟩)], []⟩,
       [.podAdded
          ⟨"10.0.0.7", "ns/p", [], "", "spiffe://cluster.local/ns/ns/sa/sa", "n1"⟩])) := by
  constructor
  · exact (handlePod_empty_ip ⟨[], []⟩
      ⟨.k8sPods, .added, ⟨"ns/p", [], some ⟨"", .pending, "n1", "sa", "ns", []⟩⟩⟩
      ⟨"", .pending, "n1", "sa", "ns", []⟩ rfl rfl).1 (Or.inl rfl) rfl
  · have h := (handlePod_empty_ip ⟨[], []⟩
      ⟨.k8sPods, .updated, ⟨"ns/p", [], some ⟨"10.0.0.7", .pending, "n1", "sa", "ns", []⟩⟩⟩
      ⟨"10.0.0.7", .pending, "n1", "sa", "ns", []⟩ rfl rfl).2 (Or.inr rfl) (by decide)
      (Or.inl rfl) (by decide)
    rw [h]
    decide

/-- Claim C9: a pod Deleted event whose payload did not parse scans the
stored records for one whose full name matches the event's name and deletes
it, firing exactly one `PodDeleted`; when no record matches (and no record
sits under the empty-IP key, which no reachable cache has), the event is
silently dropped. -/
theorem handlePod_delete_by_name (s : CacheState) (e : Event)
    (hs : e.source = .k8sPods) (hk : e.kind = .deleted) (hi : e.entry.item = none) :
    (s.pods.find? (fun q => q.2.fullName = e.entry.name) = none →
      assocLookup s.pods "" = none → Handle s e = (s, [])) ∧
    (∀ ip info, s.pods.find? (fun q => q.2.fullName = e.entry.name) = some (ip, info) →
      (s.pods.map Prod.fst).Nodup →
      Handle s e = ({ s with pods := assocErase s.pods ip }, [.podDeleted info])) := by
  constructor
  · intro hfind hempty
    simp [Handle, hs, handlePod, hk, hi, hfind, deletePod, hempty]
  · intro ip info hfind hnd
    have hmem : (ip, info) ∈ s.pods := List.mem_of_find?_eq_some hfind
    have hlook := assocLookup_of_mem_nodup hnd hmem
    simp [Handle, hs, handlePod, hk, hi, hfind, deletePod, hlook]

/-- Witness for C9: deleting by name removes the matching record and fires
one `PodDeleted`; with no matching record the event is dropped. -/
theorem handlePod_delete_by_name_witness :
    (Handle ⟨[("10.0.0.9", ⟨"10.0.0.9", "ns/p9", [], "", "sa", "n1"⟩)], []⟩
        ⟨.k8sPods, .deleted, ⟨"ns/p9", [], none⟩⟩ =
      (⟨[], []⟩, [.podDeleted ⟨"10.0.0.9", "ns/p9", [], "", "sa", "n1"⟩])) ∧
    (Handle ⟨[("10.0.0.9", ⟨"10.0.0.9", "ns/p9", [], "", "sa", "n1"⟩)], []⟩
        ⟨.k8sPods, .deleted, ⟨"ns/other", [], none⟩⟩ =
      (⟨[("10.0.0.9", ⟨"10.0.0.9", "ns/p9", [], "", "sa", "n1"⟩)], []⟩, [])) := by
  constructor
  · have h := (handlePod_delete_by_name
      ⟨[("10.0.0.9", ⟨"10.0.0.9", "ns/p9", [], "", "sa", "n1"⟩)], []⟩
      ⟨.k8sPods, .deleted, ⟨"ns/p9", [], none⟩⟩ rfl rfl rfl).2
      "10.0.0.9" ⟨"10.0.0.9", "ns/p9", [], "", "sa", "n1"⟩ (by decide) (by decide)
    rw [h]
    decide
  · exact (handlePod_delete_by_name
      ⟨[("10.0.0.9", ⟨"10.0.0.9", "ns/p9", [], "", "sa", "n1"⟩)], []⟩
      ⟨.k8sPods, .deleted, ⟨"ns/other", [], none⟩⟩ rfl rfl rfl).1 (by decide) (by decide)

theorem updatePodLocality_preserves (s : CacheState) (N loc : String)
    (hN : (assocLookup s.nodeNameToLocality N).getD "" = loc)
    (h : ∀ ip info, (ip, info) ∈ s.pods → info.nodeName ≠ N →
      info.locality = (assocLookup s.nodeNameToLocality info.nodeName).getD "") :
    LocalityInv (updatePodLocality s N loc).1 := by
  intro ip info hmem
  simp only [updatePodLocality, updatePodsOnNode_eq] at hmem ⊢
  rcases List.mem_map.mp hmem with ⟨⟨ip₀, info₀⟩, hq, heq⟩
  by_cases hn : info₀.nodeName = N
  · simp only [hn, if_pos rfl] at heq
    injection heq with h1 h2
    subst h1
    subst h2
    simpa [hn] using hN.symm
  · simp only [if_neg hn] at heq
    injection heq with h1 h2
    subst h1
    subst h2
    exact h ip₀ info₀ hq hn

theorem updatePod_preserves (s : CacheState) (pod : Info) (h : LocalityInv s)
    (hpod : pod.locality = (assocLookup s.nodeNameToLocality pod.nodeName).getD "") :
    LocalityInv (updatePod s pod).1 := by
  intro ip info hmem
  cases hl : assocLookup s.pods pod.ip with
  | some prev =>
    by_cases hp : prev = pod
    · simp only [updatePod, hl, if_pos hp] at hmem ⊢
      exact h _ _ hmem
    · simp only [updatePod, hl, if_neg hp] at hmem ⊢
      rcases mem_assocUpsert hmem with heq | hmem2
      · injection heq with h1 h2
        subst h1
        subst h2
        exact hpod
      · exact h _ _ hmem2
  | none =>
    simp only [updatePod, hl] at hmem ⊢
    rcases mem_assocUpsert hmem with heq | hmem2
    · injection heq with h1 h2
      subst h1
      subst h2
      exact hpod
    · exact h _ _ hmem2

theorem deletePod_preserves (s : CacheState) (dip : String) (h : LocalityInv s) :
    LocalityInv (deletePod s dip).1 := by
  intro ip info hmem
  cases hl : assocLookup s.pods dip with
  | none =>
    simp only [deletePod, hl] at hmem ⊢
    exact h _ _ hmem
  | some pod =>
    simp only [deletePod, hl] at hmem ⊢
    exact h _ _ (mem_assocErase hmem)

theorem handle_preserves_inv (s : CacheState) (e : Event) (h : LocalityInv s) :
    LocalityInv (Handle s e).1 := by
  cases hsrc : e.source with
  | other => simpa [Handle, hsrc] using h
  | k8sNodes =>
    have hadd : ∀ hk : EventKind, hk = .added ∨ hk = .updated → e.kind = hk →
        LocalityInv (handleNode s e).1 := by
      intro hk hor hke
      have hred : handleNode s e =
          (let labels := e.entry.metadataLabels
           let region := (assocLookup labels LabelZoneRegion).getD ""
           let zone := (assocLookup labels LabelZoneFailureDomain).getD ""
           let newLocality := getLocality region zone
           let oldLocality := (assocLookup s.nodeNameToLocality e.entry.name).getD ""
           if newLocality = oldLocality then (s, [])
           else
             let s' := { s with
               nodeNameToLocality :=
                 assocUpsert s.nodeNameToLocality e.entry.name (getLocality region zone) }
             updatePodLocality s' e.entry.name newLocality) := by
        rcases hor with hor | hor <;> rw [hor] at hke <;> simp [handleNode, hke]
      rw [hred]
      simp only []
      by_cases hcond : getLocality ((assocLookup e.entry.metadataLabels LabelZoneRegion).getD "")
          ((assocLookup e.entry.metadataLabels LabelZoneFailureDomain).getD "") =
          (assocLookup s.nodeNameToLocality e.entry.name).getD ""
      · rw [if_pos hcond]
        exact h
      · rw [if_neg hcond]
        apply updatePodLocality_preserves
        · simp [assocLookup_upsert_self]
        · intro ip info hmem hne
          show info.locality =
            (assocLookup (assocUpsert s.nodeNameToLocality e.entry.name _) info.nodeName).getD ""
          rw [assocLookup_upsert_ne _ _ _ _ hne]
          exact h ip info hmem
    cases hk : e.kind with
    | added => simpa [Handle, hsrc] using hadd .added (Or.inl rfl) hk
    | updated => simpa [Handle, hsrc] using hadd .updated (Or.inr rfl) hk
    | deleted =>
      simp only [Handle, hsrc]
      cases hl : assocLookup s.nodeNameToLocality e.entry.name with
      | none => simpa [handleNode, hk, hl] using h
      | some oldLoc =>
        simp only [handleNode, hk, hl]
        apply updatePodLocality_preserves
        · simp [assocLookup_erase_self]
        · intro ip info hmem hne
          show info.locality =
            (assocLookup (assocErase s.nodeNameToLocality e.entry.name) info.nodeName).getD ""
          rw [assocLookup_erase_ne _ _ _ hne]
          exact h ip info hmem
  | k8sPods =>
    have hup : ∀ hk : EventKind, hk = .added ∨ hk = .updated → e.kind = hk →
        LocalityInv (handlePod s e).1 := by
      intro hk hor hke
      cases hi : e.entry.item with
      | none =>
        rcases hor with hor | hor <;> rw [hor] at hke <;> simpa [handlePod, hke, hi] using h
      | some p =>
        by_cases hip : p.statusPodIP = ""
        · rcases hor with hor | hor <;> rw [hor] at hke <;>
            simpa [handlePod, hke, hi, hip] using h
        · have hred : handlePod s e =
              (match p.statusPhase with
               | .pending | .running => updatePod s (podInfoOf s e.entry.name p)
               | _ => deletePod s p.statusPodIP) := by
            rcases hor with hor | hor <;> rw [hor] at hke <;>
              simp [handlePod, hke, hi, hip]
          rw [hred]
          cases p.statusPhase with
          | pending => exact updatePod_preserves s _ h rfl
          | running => exact updatePod_preserves s _ h rfl
          | succeeded => exact deletePod_preserves s _ h
          | failed => exact deletePod_preserves s _ h
          | unknown => exact deletePod_preserves s _ h
    cases hk : e.kind with
    | added => simpa [Handle, hsrc] using hup .added (Or.inl rfl) hk
    | updated => simpa [Handle, hsrc] using hup .updated (Or.inr rfl) hk
    | deleted =>
      simp only [Handle, hsrc, handlePod, hk]
      exact deletePod_preserves s _ h

theorem foldl_preserves_inv (es : List Event) :
    ∀ s : CacheState, LocalityInv s → LocalityInv (es.foldl applyEvent s) := by
  induction es with
  | nil => exact fun s h => h
  | cons e rest ih =>
    intro s h
    exact ih _ (handle_preserves_inv s e h)

/-- Claim C7: in every cache state reachable from the empty cache by any
event sequence, each stored pod record's locality equals the node index
entry for its node name (the empty string when the node is unindexed). -/
theorem reachable_locality_consistent (es : List Event) :
    LocalityInv (applyEvents es) := by
  apply foldl_preserves_inv
  intro ip info hmem
  simp [emptyCache] at hmem

/-- Witness for C7: after adding a pod on node `n1` and then relocating
`n1`, the stored record's locality matches the node index entry. -/
theorem reachable_locality_consistent_witness :
    Info.locality ⟨"10.0.0.5", "ns/p", [], "us-east/1a", "spiffe://cluster.local/ns/ns/sa/sa", "n1"⟩
      = (assocLookup
          (applyEvents
            [⟨.k8sPods, .added, ⟨"ns/p", [], some ⟨"10.0.0.5", .running, "n1", "sa", "ns", []⟩⟩⟩,
             nodeUpdateEvent "n1" "us-east" "1a"]).nodeNameToLocality "n1").getD "" :=
  reachable_locality_consistent
    [⟨.k8sPods, .added, ⟨"ns/p", [], some ⟨"10.0.0.5", .running, "n1", "sa", "ns", []⟩⟩⟩,
     nodeUpdateEvent "n1" "us-east" "1a"]
    "10.0.0.5"
    ⟨"10.0.0.5", "ns/p", [], "us-east/1a", "spiffe://cluster.local/ns/ns/sa/sa", "n1"⟩
    (by decide)

end PodCache

namespace ClusterBuild

/-! ## Cluster-builder lemmas -/

theorem applyTrafficPolicy_name (c : Cluster) (p : Option TrafficPolicy) :
    (applyTrafficPolicy c p).name = c.name := by
  cases p <;> rfl

theorem applyTrafficPolicy_type (c : Cluster) (p : Option TrafficPolicy) :
    (applyTrafficPolicy c p).clusterDiscoveryType = c.clusterDiscoveryType := by
  cases p <;> rfl

theorem applyTrafficPolicy_loadAssignment (c : Cluster) (p : Option TrafficPolicy) :
    (applyTrafficPolicy c p).loadAssignment = c.loadAssignment := by
  cases p <;> rfl

theorem applyTrafficPolicy_edsConfig (c : Cluster) (p : Option TrafficPolicy) :
    (applyTrafficPolicy c p).edsClusterConfig = c.edsClusterConfig := by
  cases p <;> rfl

theorem applyTrafficPolicy_applied (c : Cluster) (p : Option TrafficPolicy) :
    (applyTrafficPolicy c p).appliedPolicy = p.or c.appliedPolicy := by
  cases p <;> rfl

theorem maybeApplyEdsConfig_name (c : Cluster) :
    (maybeApplyEdsConfig c).name = c.name := by
  cases h : c.clusterDiscoveryType <;> simp [maybeApplyEdsConfig, h]

theorem maybeApplyEdsConfig_applied (c : Cluster) :
    (maybeApplyEdsConfig c).appliedPolicy = c.appliedPolicy := by
  cases h : c.clusterDiscoveryType <;> simp [maybeApplyEdsConfig, h]

theorem maybeApplyEdsConfig_loadAssignment (c : Cluster) :
    (maybeApplyEdsConfig c).loadAssignment = c.loadAssignment := by
  cases h : c.clusterDiscoveryType <;> simp [maybeApplyEdsConfig, h]

theorem maybeApplyEdsConfig_of_EDS (c : Cluster) (h : c.clusterDiscoveryType = .EDS) :
    maybeApplyEdsConfig c = { c with edsClusterConfig := some ⟨c.name, true⟩ } := by
  simp [maybeApplyEdsConfig, h]

theorem maybeApplyEdsConfig_of_ne (c : Cluster) (h : c.clusterDiscoveryType ≠ .EDS) :
    maybeApplyEdsConfig c = c := by
  cases hc : c.clusterDiscoveryType <;> simp [maybeApplyEdsConfig, hc]
  exact absurd hc h

theorem buildDefaultCluster_STATIC_nil (mesh : MeshConfig) (name : String)
    (dir : TrafficDirection) (port : Option Nat) (ext : Bool) :
    buildDefaultCluster mesh name .STATIC [] dir port ext =
      (none, [dnsNoEndpointMetric .STATIC name]) := rfl

theorem buildDefaultCluster_STRICT_DNS_nil (mesh : MeshConfig) (name : String)
    (dir : TrafficDirection) (port : Option Nat) (ext : Bool) :
    buildDefaultCluster mesh name .STRICT_DNS [] dir port ext =
      (none, [dnsNoEndpointMetric .STRICT_DNS name]) := rfl

theorem buildDefaultCluster_STATIC_cons (mesh : MeshConfig) (name : String)
    (a : LocalityLbEndpoints) (as : List LocalityLbEndpoints)
    (dir : TrafficDirection) (port : Option Nat) (ext : Bool) :
    buildDefaultCluster mesh name .STATIC (a :: as) dir port ext =
      (some { name := name
              clusterDiscoveryType := .STATIC
              loadAssignment := some { clusterName := name, endpoints := a :: as }
              appliedPolicy := some (defaultTrafficPolicy mesh .STATIC) }, []) := rfl

theorem buildDefaultCluster_STRICT_DNS_cons (mesh : MeshConfig) (name : String)
    (a : LocalityLbEndpoints) (as : List LocalityLbEndpoints)
    (dir : TrafficDirection) (port : Option Nat) (ext : Bool) :
    buildDefaultCluster mesh name .STRICT_DNS (a :: as) dir port ext =
      (some { name := name
              clusterDiscoveryType := .STRICT_DNS
              dnsLookupFamilyV4 := true
              dnsRefreshRate := some mesh.dnsRefreshRate
              respectDnsTtl := true
              loadAssignment := some { clusterName := name, endpoints := a :: as }
              appliedPolicy := some (defaultTrafficPolicy mesh .STRICT_DNS) }, []) := rfl

theorem buildDefaultCluster_EDS (mesh : MeshConfig) (name : String)
    (leps : List LocalityLbEndpoints) (dir : TrafficDirection) (port : Option Nat)
    (ext : Bool) :
    buildDefaultCluster mesh name .EDS leps dir port ext =
      (some { name := name
              clusterDiscoveryType := .EDS
              appliedPolicy := some (defaultTrafficPolicy mesh .EDS) }, []) := rfl

theorem buildDefaultCluster_ORIGINAL_DST (mesh : MeshConfig) (name : String)
    (leps : List LocalityLbEndpoints) (dir : TrafficDirection) (port : Option Nat)
    (ext : Bool) :
    buildDefaultCluster mesh name .ORIGINAL_DST leps dir port ext =
      (some { name := name
              clusterDiscoveryType := .ORIGINAL_DST
              appliedPolicy := some (defaultTrafficPolicy mesh .ORIGINAL_DST) }, []) := rfl

theorem buildDefaultCluster_LOGICAL_DNS (mesh : MeshConfig) (name : String)
    (leps : List LocalityLbEndpoints) (dir : TrafficDirection) (port : Option Nat)
    (ext : Bool) :
    buildDefaultCluster mesh name .LOGICAL_DNS leps dir port ext =
      (some { name := name
              clusterDiscoveryType := .LOGICAL_DNS
              appliedPolicy := some (defaultTrafficPolicy mesh .LOGICAL_DNS) }, []) := rfl

theorem buildDefaultCluster_some_spec (mesh : MeshConfig) (name : String)
    (dt : DiscoveryType) (leps : List LocalityLbEndpoints) (dir : TrafficDirection)
    (port : Option Nat) (ext : Bool) (c : Cluster) (m : List PushMetric)
    (h : buildDefaultCluster mesh name dt leps dir port ext = (some c, m)) :
    c.name = name ∧ c.clusterDiscoveryType = dt ∧
    c.appliedPolicy = some (defaultTrafficPolicy mesh dt) ∧
    c.edsClusterConfig = none ∧ m = [] := by
  cases dt with
  | STATIC =>
    cases leps with
    | nil => rw [buildDefaultCluster_STATIC_nil] at h; simp at h
    | cons a as =>
      rw [buildDefaultCluster_STATIC_cons] at h
      injection h with h1 h2
      injection h1 with h1
      subst h1
      subst h2
      exact ⟨rfl, rfl, rfl, rfl, rfl⟩
  | STRICT_DNS =>
    cases leps with
    | nil => rw [buildDefaultCluster_STRICT_DNS_nil] at h; simp at h
    | cons a as =>
      rw [buildDefaultCluster_STRICT_DNS_cons] at h
      injection h with h1 h2
      injection h1 with h1
      subst h1
      subst h2
      exact ⟨rfl, rfl, rfl, rfl, rfl⟩
  | EDS =>
    rw [buildDefaultCluster_EDS] at h
    injection h with h1 h2
    injection h1 with h1
    subst h1
    subst h2
    exact ⟨rfl, rfl, rfl, rfl, rfl⟩
  | ORIGINAL_DST =>
    rw [buildDefaultCluster_ORIGINAL_DST] at h
    injection h with h1 h2
    injection h1 with h1
    subst h1
    subst h2
    exact ⟨rfl, rfl, rfl, rfl, rfl⟩
  | LOGICAL_DNS =>
    rw [buildDefaultCluster_LOGICAL_DNS] at h
    injection h with h1 h2
    injection h1 with h1
    subst h1
    subst h2
    exact ⟨rfl, rfl, rfl, rfl, rfl⟩

theorem applySubset_policy (mesh : MeshConfig) (eps : List LbEndpoint)
    (cluster : Cluster) (drp : Option TrafficPolicy) (mode : ClusterMode)
    (host : String) (port : Nat) (ext : Bool) (ss : Subset) :
    ∀ c m, applySubset mesh eps cluster drp mode host port ext ss = (some c, m) →
      c.appliedPolicy = some (ss.trafficPolicy.getD
        (drp.getD (defaultTrafficPolicy mesh cluster.clusterDiscoveryType))) := by
  intro c m h
  simp only [applySubset] at h
  split at h
  · simp at h
  · rename_i sc ms heq
    injection h with h1 h2
    injection h1 with h1
    subst h1
    have hsc := (buildDefaultCluster_some_spec _ _ _ _ _ _ _ _ _ heq).2.2.1
    cases hsp : ss.trafficPolicy with
    | some sp =>
      simp [hsp, maybeApplyEdsConfig_applied, applyTrafficPolicy_applied]
    | none =>
      cases drp with
      | some d =>
        simp [hsp, maybeApplyEdsConfig_applied, applyTrafficPolicy_applied, Option.or]
      | none =>
        simp [hsp, maybeApplyEdsConfig_applied, applyTrafficPolicy_applied, Option.or, hsc]

theorem applyDestinationRule_eq (mesh : MeshConfig) (eps : List LbEndpoint)
    (destRule : Option DestinationRule) (cluster : Cluster) (mode : ClusterMode)
    (host : String) (port : Nat) (ext : Bool) :
    applyDestinationRule mesh eps destRule cluster mode host port ext =
      (maybeApplyEdsConfig
        (applyTrafficPolicy cluster (castDestinationRuleOrDefault destRule).trafficPolicy),
       applySubsetList mesh eps
         (maybeApplyEdsConfig
           (applyTrafficPolicy cluster (castDestinationRuleOrDefault destRule).trafficPolicy))
         (castDestinationRuleOrDefault destRule).trafficPolicy mode host port ext
         (castDestinationRuleOrDefault destRule).subsets) := rfl

theorem mem_applySubsetList (mesh : MeshConfig) (eps : List LbEndpoint)
    (cluster : Cluster) (drp : Option TrafficPolicy) (mode : ClusterMode)
    (host : String) (port : Nat) (ext : Bool) (l : List Subset) (c : Cluster)
    (hc : c ∈ (applySubsetList mesh eps cluster drp mode host port ext l).1) :
    ∃ ss ∈ l, ∃ m,
      applySubset mesh eps cluster drp mode host port ext ss = (some c, m) := by
  induction l with
  | nil => simp [applySubsetList] at hc
  | cons ss rest ih =>
    rcases hrec : applySubsetList mesh eps cluster drp mode host port ext rest
      with ⟨cs, ms⟩
    rcases happ : applySubset mesh eps cluster drp mode host port ext ss with ⟨oc, m⟩
    cases oc with
    | none =>
      simp only [applySubsetList, hrec, happ] at hc
      have hmem : c ∈ (applySubsetList mesh eps cluster drp mode host port ext rest).1 := by
        rw [hrec]
        exact hc
      rcases ih hmem with ⟨ss', hss', m', h'⟩
      exact ⟨ss', List.mem_cons_of_mem _ hss', m', h'⟩
    | some c₀ =>
      simp only [applySubsetList, hrec, happ] at hc
      rcases List.mem_cons.mp hc with hh | hh
      · exact ⟨ss, List.mem_cons_self _ _, m, hh ▸ happ⟩
      · have hmem : c ∈ (applySubsetList mesh eps cluster drp mode host port ext rest).1 := by
          rw [hrec]
          exact hh
        rcases ih hmem with ⟨ss', hss', m', h'⟩
        exact ⟨ss', List.mem_cons_of_mem _ hss', m', h'⟩

/-- Claim C1: per-cluster policy resolution starts from the compiler's
default policy for the discovery type (attached by `buildDefaultCluster`),
is replaced wholesale by the destination-rule-level policy when present, and
for a subset cluster is replaced again by the subset-level policy when
present; so a subset cluster with a subset policy carries exactly that
policy while the main (default) cluster carries the rule-level policy. -/
theorem policy_resolution_order (mesh : MeshConfig) (eps : List LbEndpoint)
    (destRule : Option DestinationRule) (cluster : Cluster) (mode : ClusterMode)
    (host : String) (port : Nat) (ext : Bool) :
    ((applyDestinationRule mesh eps destRule cluster mode host port ext).1.appliedPolicy =
      ((castDestinationRuleOrDefault destRule).trafficPolicy).or cluster.appliedPolicy) ∧
    (∀ drp ss c m,
      applySubset mesh eps cluster drp mode host port ext ss = (some c, m) →
      c.appliedPolicy = some (ss.trafficPolicy.getD
        (drp.getD (defaultTrafficPolicy mesh cluster.clusterDiscoveryType)))) ∧
    (∀ (dr : DestinationRule) (drp : TrafficPolicy)
        (aleps : List LocalityLbEndpoints) (dt : DiscoveryType)
        (mainC : Cluster) (subs : List Cluster) (ms : List PushMetric),
      dr.trafficPolicy = some drp →
      compileServicePort mesh eps aleps (some dr) dt host port ext = (mainC :: subs, ms) →
      mainC.appliedPolicy = some drp ∧
      ∀ c ∈ subs, ∃ ss ∈ dr.subsets,
        c.appliedPolicy = some (ss.trafficPolicy.getD drp)) := by
  refine ⟨?_, ?_, ?_⟩
  · rw [applyDestinationRule_eq]
    simp [maybeApplyEdsConfig_applied, applyTrafficPolicy_applied]
  · intro drp ss c m h
    exact applySubset_policy mesh eps cluster drp mode host port ext ss c m h
  · intro dr drp aleps dt mainC subs ms hdr hcomp
    simp only [compileServicePort] at hcomp
    split at hcomp
    · simp at hcomp
    · next c0 ms0 heq =>
      rw [applyDestinationRule_eq] at hcomp
      simp only [castDestinationRuleOrDefault, hdr] at hcomp
      injection hcomp with h1 h2
      injection h1 with hmain hsubs
      constructor
      · rw [← hmain]
        simp [maybeApplyEdsConfig_applied, applyTrafficPolicy_applied, Option.or]
      · intro c hcmem
        have hc : c ∈ (applySubsetList mesh eps
            (maybeApplyEdsConfig (applyTrafficPolicy c0 (some drp)))
            (some drp) .DefaultClusterMode host port ext dr.subsets).1 := by
          rw [← hsubs] at hcmem
          exact hcmem
        rcases mem_applySubsetList _ _ _ _ _ _ _ _ _ _ hc with ⟨ss, hss, m, happ⟩
        refine ⟨ss, hss, ?_⟩
        have := applySubset_policy _ _ _ _ _ _ _ _ _ _ _ happ
        rw [this]
        simp [Option.getD]

/-- Witness for C1: a destination rule with policy `DRP` and subsets `v1`
(override `SP`) and `v2` (no override) over an EDS service — the main
cluster carries `DRP`, the `v1` subset cluster carries exactly `SP`. -/
theorem policy_resolution_order_witness :
    ((applyDestinationRule ⟨⟨1, 0⟩, ⟨2, 0⟩⟩ []
        (some ⟨some ⟨none, none, some 1, none⟩,
          [⟨"v1", [("version", "v1")], some ⟨none, none, some 2, none⟩⟩,
           ⟨"v2", [("version", "v2")], none⟩]⟩)
        ⟨"outbound|80||svc", .EDS, false, none, false, none, none,
          some (defaultTrafficPolicy ⟨⟨1, 0⟩, ⟨2, 0⟩⟩ .EDS)⟩
        .DefaultClusterMode "svc" 80 false).1.appliedPolicy =
      ((castDestinationRuleOrDefault
          (some ⟨some ⟨none, none, some 1, none⟩,
            [⟨"v1", [("version", "v1")], some ⟨none, none, some 2, none⟩⟩,
             ⟨"v2", [("version", "v2")], none⟩]⟩)).trafficPolicy).or
        (Cluster.appliedPolicy ⟨"outbound|80||svc", .EDS, false, none, false, none, none,
          some (defaultTrafficPolicy ⟨⟨1, 0⟩, ⟨2, 0⟩⟩ .EDS)⟩)) ∧
    (Cluster.appliedPolicy
        ⟨"outbound|80|v1|svc", .EDS, false, none, false, none,
          some ⟨"outbound|80|v1|svc", true⟩, some ⟨none, none, some 2, none⟩⟩ =
      some (Option.getD (some ⟨none, none, some 2, none⟩)
        ((some ⟨none, none, some 1, none⟩).getD
          (defaultTrafficPolicy ⟨⟨1, 0⟩, ⟨2, 0⟩⟩
            (Cluster.clusterDiscoveryType ⟨"outbound|80||svc", .EDS, false, none, false, none,
              none, some (defaultTrafficPolicy ⟨⟨1, 0⟩, ⟨2, 0⟩⟩ .EDS)⟩))))) ∧
    (Cluster.appliedPolicy
        ⟨"outbound|80||svc", .EDS, false, none, false, none,
          some ⟨"outbound|80||svc", true⟩, some ⟨none, none, some 1, none⟩⟩ =
      some ⟨none, none, some 1, none⟩) := by
  refine ⟨?_, ?_, ?_⟩
  · exact (policy_resolution_order ⟨⟨1, 0⟩, ⟨2, 0⟩⟩ []
      (some ⟨some ⟨none, none, some 1, none⟩,
        [⟨"v1", [("version", "v1")], some ⟨none, none, some 2, none⟩⟩,
         ⟨"v2", [("version", "v2")], none⟩]⟩)
      ⟨"outbound|80||svc", .EDS, false, none, false, none, none,
        some (defaultTrafficPolicy ⟨⟨1, 0⟩, ⟨2, 0⟩⟩ .EDS)⟩
      .DefaultClusterMode "svc" 80 false).1
  · exact (policy_resolution_order ⟨⟨1, 0⟩, ⟨2, 0⟩⟩ []
      (some ⟨some ⟨none, none, some 1, none⟩,
        [⟨"v1", [("version", "v1")], some ⟨none, none, some 2, none⟩⟩,
         ⟨"v2", [("version", "v2")], none⟩]⟩)
      ⟨"outbound|80||svc", .EDS, false, none, false, none, none,
        some (defaultTrafficPolicy ⟨⟨1, 0⟩, ⟨2, 0⟩⟩ .EDS)⟩
      .DefaultClusterMode "svc" 80 false).2.1
      (some ⟨none, none, some 1, none⟩)
      ⟨"v1", [("version", "v1")], some ⟨none, none, some 2, none⟩⟩
      ⟨"outbound|80|v1|svc", .EDS, false, none, false, none,
        some ⟨"outbound|80|v1|svc", true⟩, some ⟨none, none, some 2, none⟩⟩
      [] (by decide)
  · exact ((policy_resolution_order ⟨⟨1, 0⟩, ⟨2, 0⟩⟩ []
      (some ⟨some ⟨none, none, some 1, none⟩,
        [⟨"v1", [("version", "v1")], some ⟨none, none, some 2, none⟩⟩,
         ⟨"v2", [("version", "v2")], none⟩]⟩)
      ⟨"outbound|80||svc", .EDS, false, none, false, none, none,
        some (defaultTrafficPolicy ⟨⟨1, 0⟩, ⟨2, 0⟩⟩ .EDS)⟩
      .DefaultClusterMode "svc" 80 false).2.2
      ⟨some ⟨none, none, some 1, none⟩,
        [⟨"v1", [("version", "v1")], some ⟨none, none, some 2, none⟩⟩,
         ⟨"v2", [("version", "v2")], none⟩]⟩
      ⟨none, none, some 1, none⟩ [] .EDS
      ⟨"outbound|80||svc", .EDS, false, none, false, none,
        some ⟨"outbound|80||svc", true⟩, some ⟨none, none, some 1, none⟩⟩
      [⟨"outbound|80|v1|svc", .EDS, false, none, false, none,
          some ⟨"outbound|80|v1|svc", true⟩, some ⟨none, none, some 2, none⟩⟩,
       ⟨"outbound|80|v2|svc", .EDS, false, none, false, none,
          some ⟨"outbound|80|v2|svc", true⟩, some ⟨none, none, some 1, none⟩⟩]
      [] rfl (by decide)).1

/-- Claim C3: `buildDefaultCluster` with discovery type `STRICT_DNS` or
`STATIC` and an empty locality-endpoint list produces no cluster and records
exactly one diagnostic metric; and a subset whose cluster build is rejected
is skipped while the remaining subsets of the batch still compile. -/
theorem empty_endpoints_rejected (mesh : MeshConfig) (name : String)
    (dt : DiscoveryType) (dir : TrafficDirection) (port : Option Nat) (ext : Bool)
    (hdt : dt = .STRICT_DNS ∨ dt = .STATIC) :
    (buildDefaultCluster mesh name dt [] dir port ext =
      (none, [dnsNoEndpointMetric dt name])) ∧
    (∀ (eps : List LbEndpoint) (cluster : Cluster) (drp : Option TrafficPolicy)
        (mode : ClusterMode) (host : String) (portN : Nat) (ext2 : Bool)
        (ss : Subset) (rest : List Subset) (m : List PushMetric),
      applySubset mesh eps cluster drp mode host portN ext2 ss = (none, m) →
      applySubsetList mesh eps cluster drp mode host portN ext2 (ss :: rest) =
        ((applySubsetList mesh eps cluster drp mode host portN ext2 rest).1,
         m ++ (applySubsetList mesh eps cluster drp mode host portN ext2 rest).2)) := by
  constructor
  · rcases hdt with rfl | rfl
    · exact buildDefaultCluster_STRICT_DNS_nil mesh name dir port ext
    · exact buildDefaultCluster_STATIC_nil mesh name dir port ext
  · intro eps cluster drp mode host portN ext2 ss rest m h
    rcases hrec : applySubsetList mesh eps cluster drp mode host portN ext2 rest
      with ⟨cs, ms⟩
    simp [applySubsetList, hrec, h]

/-- Witness for C3: a `STRICT_DNS` build with no endpoints is rejected with
one metric; a skipped `v1` subset leaves the `v2` subset of the same batch
compiling to its cluster. -/
theorem empty_endpoints_rejected_witness :
    (buildDefaultCluster ⟨⟨1, 0⟩, ⟨2, 0⟩⟩ "c1" .STRICT_DNS [] .outbound none false =
      (none, [dnsNoEndpointMetric .STRICT_DNS "c1"])) ∧
    (applySubsetList ⟨⟨1, 0⟩, ⟨2, 0⟩⟩ [⟨"10.1.1.2", [("version", "v2")]⟩]
        ⟨"outbound|80||svc", .STATIC, false, none, false, none, none,
          some (defaultTrafficPolicy ⟨⟨1, 0⟩, ⟨2, 0⟩⟩ .STATIC)⟩
        none .DefaultClusterMode "svc" 80 false
        [⟨"v1", [("version", "v1")], none⟩, ⟨"v2", [("version", "v2")], none⟩] =
      ((applySubsetList ⟨⟨1, 0⟩, ⟨2, 0⟩⟩ [⟨"10.1.1.2", [("version", "v2")]⟩]
          ⟨"outbound|80||svc", .STATIC, false, none, false, none, none,
            some (defaultTrafficPolicy ⟨⟨1, 0⟩, ⟨2, 0⟩⟩ .STATIC)⟩
          none .DefaultClusterMode "svc" 80 false
          [⟨"v2", [("version", "v2")], none⟩]).1,
       [dnsNoEndpointMetric .STATIC "outbound|80|v1|svc"] ++
         (applySubsetList ⟨⟨1, 0⟩, ⟨2, 0⟩⟩ [⟨"10.1.1.2", [("version", "v2")]⟩]
           ⟨"outbound|80||svc", .STATIC, false, none, false, none, none,
             some (defaultTrafficPolicy ⟨⟨1, 0⟩, ⟨2, 0⟩⟩ .STATIC)⟩
           none .DefaultClusterMode "svc" 80 false
           [⟨"v2", [("version", "v2")], none⟩]).2)) := by
  constructor
  · exact (empty_endpoints_rejected ⟨⟨1, 0⟩, ⟨2, 0⟩⟩ "c1" .STRICT_DNS .outbound none false
      (Or.inl rfl)).1
  · exact (empty_endpoints_rejected ⟨⟨1, 0⟩, ⟨2, 0⟩⟩ "c1" .STRICT_DNS .outbound none false
      (Or.inl rfl)).2
      [⟨"10.1.1.2", [("version", "v2")]⟩]
      ⟨"outbound|80||svc", .STATIC, false, none, false, none, none,
        some (defaultTrafficPolicy ⟨⟨1, 0⟩, ⟨2, 0⟩⟩ .STATIC)⟩
      none .DefaultClusterMode "svc" 80 false
      ⟨"v1", [("version", "v1")], none⟩
      [⟨"v2", [("version", "v2")], none⟩]
      [dnsNoEndpointMetric .STATIC "outbound|80|v1|svc"]
      (by decide)

theorem chainTP_name (c : Cluster) (drp ssp : Option TrafficPolicy) :
    (match ssp with
      | some sp => applyTrafficPolicy (applyTrafficPolicy c drp) (some sp)
      | none => applyTrafficPolicy c drp).name = c.name := by
  cases ssp <;> simp [applyTrafficPolicy_name]

theorem chainTP_type (c : Cluster) (drp ssp : Option TrafficPolicy) :
    (match ssp with
      | some sp => applyTrafficPolicy (applyTrafficPolicy c drp) (some sp)
      | none => applyTrafficPolicy c drp).clusterDiscoveryType = c.clusterDiscoveryType := by
  cases ssp <;> simp [applyTrafficPolicy_type]

theorem chainTP_loadAssignment (c : Cluster) (drp ssp : Option TrafficPolicy) :
    (match ssp with
      | some sp => applyTrafficPolicy (applyTrafficPolicy c drp) (some sp)
      | none => applyTrafficPolicy c drp).loadAssignment = c.loadAssignment := by
  cases ssp <;> simp [applyTrafficPolicy_loadAssignment]

theorem chainTP_edsConfig (c : Cluster) (drp ssp : Option TrafficPolicy) :
    (match ssp with
      | some sp => applyTrafficPolicy (applyTrafficPolicy c drp) (some sp)
      | none => applyTrafficPolicy c drp).edsClusterConfig = c.edsClusterConfig := by
  cases ssp <;> simp [applyTrafficPolicy_edsConfig]

/-- Counterexample to C4 as stated: a subset with the non-empty selector
`version=v1` of a `STATIC` service with no matching endpoint produces no
subset cluster at all (the build is rejected for lack of endpoints), whereas
the claim promises an additional cluster for every subset with a non-empty
selector. -/
theorem subset_cluster_not_always_produced :
    Subset.subsetLabels ⟨"v1", [("version", "v1")], none⟩ ≠ [] ∧
    (applySubset ⟨⟨1, 0⟩, ⟨2, 0⟩⟩ []
      ⟨"outbound|80||svc", .STATIC, false, none, false, none, none,
        some (defaultTrafficPolicy ⟨⟨1, 0⟩, ⟨2, 0⟩⟩ .STATIC)⟩
      none .DefaultClusterMode "svc" 80 false
      ⟨"v1", [("version", "v1")], none⟩).1 = none := by
  exact ⟨by decide, by decide⟩

/-- Claim C4 (amended): for a subset with a non-empty label selector, in
default cluster mode —
* any produced subset cluster is named by `BuildSubsetKey` for the subset;
* when the main cluster's discovery type is `STATIC`/`STRICT_DNS`, a
  produced subset cluster carries exactly the inline endpoints filtered to
  members matching the subset's labels, and no EDS config; and the subset is
  skipped (no cluster) precisely when that filtered endpoint list is empty;
* when the discovery type is EDS a subset cluster is always produced,
  carrying no inline endpoints and an EDS delegation config whose
  `ServiceName` is the cluster's own name, resolved via ADS. -/
theorem applySubset_subset_cluster (mesh : MeshConfig) (eps : List LbEndpoint)
    (cluster : Cluster) (drp : Option TrafficPolicy) (host : String) (port : Nat)
    (ext : Bool) (ss : Subset) (hlabels : ss.subsetLabels ≠ []) :
    (∀ c m, applySubset mesh eps cluster drp .DefaultClusterMode host port ext ss
        = (some c, m) →
      c.name = BuildSubsetKey .outbound ss.name host port) ∧
    ((cluster.clusterDiscoveryType = .STATIC ∨ cluster.clusterDiscoveryType = .STRICT_DNS) →
      ∀ c m, applySubset mesh eps cluster drp .DefaultClusterMode host port ext ss
          = (some c, m) →
        c.loadAssignment = some ⟨BuildSubsetKey .outbound ss.name host port,
          buildLocalityLbEndpoints eps [ss.subsetLabels]⟩ ∧
        c.edsClusterConfig = none) ∧
    ((cluster.clusterDiscoveryType = .STATIC ∨ cluster.clusterDiscoveryType = .STRICT_DNS) →
      ((applySubset mesh eps cluster drp .DefaultClusterMode host port ext ss).1 = none ↔
        buildLocalityLbEndpoints eps [ss.subsetLabels] = [])) ∧
    (cluster.clusterDiscoveryType = .EDS →
      ∃ c, applySubset mesh eps cluster drp .DefaultClusterMode host port ext ss
          = (some c, []) ∧
        c.loadAssignment = none ∧
        c.edsClusterConfig = some ⟨BuildSubsetKey .outbound ss.name host port, true⟩) := by
  refine ⟨?_, ?_, ?_, ?_⟩
  · intro c m h
    simp only [applySubset] at h
    split at h
    · simp at h
    · rename_i sc ms heq
      injection h with h1 h2
      injection h1 with h1
      subst h1
      rw [maybeApplyEdsConfig_name, chainTP_name]
      exact (buildDefaultCluster_some_spec _ _ _ _ _ _ _ _ _ heq).1
  · intro htype c m h
    simp only [applySubset] at h
    rcases htype with ht | ht <;>
      rw [ht] at h <;>
      rw [if_pos ⟨by decide, hlabels⟩] at h <;>
      rcases hb : buildLocalityLbEndpoints eps [ss.subsetLabels] with _ | ⟨a, as⟩ <;>
      rw [hb] at h
    · rw [buildDefaultCluster_STATIC_nil] at h
      simp at h
    · rw [buildDefaultCluster_STATIC_cons] at h
      simp only [] at h
      injection h with h1 h2
      injection h1 with h1
      subst h1
      constructor
      · rw [maybeApplyEdsConfig_loadAssignment, chainTP_loadAssignment]
      · rw [maybeApplyEdsConfig_of_ne _
            (by rw [chainTP_type]; exact fun hx => DiscoveryType.noConfusion hx),
          chainTP_edsConfig]
    · rw [buildDefaultCluster_STRICT_DNS_nil] at h
      simp at h
    · rw [buildDefaultCluster_STRICT_DNS_cons] at h
      simp only [] at h
      injection h with h1 h2
      injection h1 with h1
      subst h1
      constructor
      · rw [maybeApplyEdsConfig_loadAssignment, chainTP_loadAssignment]
      · rw [maybeApplyEdsConfig_of_ne _
            (by rw [chainTP_type]; exact fun hx => DiscoveryType.noConfusion hx),
          chainTP_edsConfig]
  · intro htype
    rcases htype with ht | ht <;>
      simp only [applySubset, ht] <;>
      rw [if_pos ⟨by decide, hlabels⟩] <;>
      rcases hb : buildLocalityLbEndpoints eps [ss.subsetLabels] with _ | ⟨a, as⟩
    · rw [buildDefaultCluster_STATIC_nil]
      simp
    · rw [buildDefaultCluster_STATIC_cons]
      simp
    · rw [buildDefaultCluster_STRICT_DNS_nil]
      simp
    · rw [buildDefaultCluster_STRICT_DNS_cons]
      simp
  · intro ht
    simp only [applySubset, ht]
    rw [if_neg (fun hcond => hcond.1 rfl), buildDefaultCluster_EDS]
    refine ⟨_, rfl, ?_, ?_⟩
    · rw [maybeApplyEdsConfig_loadAssignment, chainTP_loadAssignment]
    · rw [maybeApplyEdsConfig_of_EDS _ (by rw [chainTP_type])]
      simp [chainTP_name]

/-- Witness for the amended C4: over endpoints `10.1.1.1` (labels
`version=v1`) and `10.1.1.2` (labels `version=v2`), the `v1` subset of a
`STATIC` service compiles to a cluster named `outbound|80|v1|svc` carrying
exactly the matching endpoint inline and no EDS config; with no endpoints
the same subset is skipped. -/
theorem applySubset_subset_cluster_witness :
    (Cluster.name
        ⟨"outbound|80|v1|svc", .STATIC, false, none, false,
          some ⟨"outbound|80|v1|svc", [⟨"", [⟨"10.1.1.1", [("version", "v1"), ("app", "a")]⟩]⟩]⟩,
          none, some (defaultTrafficPolicy ⟨⟨1, 0⟩, ⟨2, 0⟩⟩ .STATIC)⟩ =
      BuildSubsetKey .outbound "v1" "svc" 80) ∧
    (Cluster.loadAssignment
        ⟨"outbound|80|v1|svc", .STATIC, false, none, false,
          some ⟨"outbound|80|v1|svc", [⟨"", [⟨"10.1.1.1", [("version", "v1"), ("app", "a")]⟩]⟩]⟩,
          none, some (defaultTrafficPolicy ⟨⟨1, 0⟩, ⟨2, 0⟩⟩ .STATIC)⟩ =
      some ⟨BuildSubsetKey .outbound "v1" "svc" 80,
        buildLocalityLbEndpoints
          [⟨"10.1.1.1", [("version", "v1"), ("app", "a")]⟩, ⟨"10.1.1.2", [("version", "v2")]⟩]
          [[("version", "v1")]]⟩ ∧
      Cluster.edsClusterConfig
        ⟨"outbound|80|v1|svc", .STATIC, false, none, false,
          some ⟨"outbound|80|v1|svc", [⟨"", [⟨"10.1.1.1", [("version", "v1"), ("app", "a")]⟩]⟩]⟩,
          none, some (defaultTrafficPolicy ⟨⟨1, 0⟩, ⟨2, 0⟩⟩ .STATIC)⟩ = none) ∧
    ((applySubset ⟨⟨1, 0⟩, ⟨2, 0⟩⟩ []
        ⟨"outbound|80||svc", .STATIC, false, none, false, none, none,
          some (defaultTrafficPolicy ⟨⟨1, 0⟩, ⟨2, 0⟩⟩ .STATIC)⟩
        none .DefaultClusterMode "svc" 80 false
        ⟨"v1", [("version", "v1")], none⟩).1 = none ↔
      buildLocalityLbEndpoints [] [[("version", "v1")]] = []) := by
  refine ⟨?_, ?_, ?_⟩
  · exact (applySubset_subset_cluster ⟨⟨1, 0⟩, ⟨2, 0⟩⟩
      [⟨"10.1.1.1", [("version", "v1"), ("app", "a")]⟩, ⟨"10.1.1.2", [("version", "v2")]⟩]
      ⟨"outbound|80||svc", .STATIC, false, none, false, none, none,
        some (defaultTrafficPolicy ⟨⟨1, 0⟩, ⟨2, 0⟩⟩ .STATIC)⟩
      none "svc" 80 false ⟨"v1", [("version", "v1")], none⟩ (by decide)).1
      ⟨"outbound|80|v1|svc", .STATIC, false, none, false,
        some ⟨"outbound|80|v1|svc", [⟨"", [⟨"10.1.1.1", [("version", "v1"), ("app", "a")]⟩]⟩]⟩,
        none, some (defaultTrafficPolicy ⟨⟨1, 0⟩, ⟨2, 0⟩⟩ .STATIC)⟩
      [] (by decide)
  · exact (applySubset_subset_cluster ⟨⟨1, 0⟩, ⟨2, 0⟩⟩
      [⟨"10.1.1.1", [("version", "v1"), ("app", "a")]⟩, ⟨"10.1.1.2", [("version", "v2")]⟩]
      ⟨"outbound|80||svc", .STATIC, false, none, false, none, none,
        some (defaultTrafficPolicy ⟨⟨1, 0⟩, ⟨2, 0⟩⟩ .STATIC)⟩
      none "svc" 80 false ⟨"v1", [("version", "v1")], none⟩ (by decide)).2.1
      (Or.inl rfl)
      ⟨"outbound|80|v1|svc", .STATIC, false, none, false,
        some ⟨"outbound|80|v1|svc", [⟨"", [⟨"10.1.1.1", [("version", "v1"), ("app", "a")]⟩]⟩]⟩,
        none, some (defaultTrafficPolicy ⟨⟨1, 0⟩, ⟨2, 0⟩⟩ .STATIC)⟩
      [] (by decide)
  · exact (applySubset_subset_cluster ⟨⟨1, 0⟩, ⟨2, 0⟩⟩ []
      ⟨"outbound|80||svc", .STATIC, false, none, false, none, none,
        some (defaultTrafficPolicy ⟨⟨1, 0⟩, ⟨2, 0⟩⟩ .STATIC)⟩
      none "svc" 80 false ⟨"v1", [("version", "v1")], none⟩ (by decide)).2.2.1
      (Or.inl rfl)

end ClusterBuild

namespace Ads

/-! ## Push-session lemmas -/

/-- Claim C6: for one (connection, resource-type) session, a configuration
change arriving while a push is outstanding sends nothing (it only marks the
change), every transition emits at most one push, and an ACK carrying the
outstanding nonce without error detail unblocks exactly one push when
configuration changed since the outstanding push was sent and zero pushes
otherwise. -/
theorem session_flow_control (s : SessionState) (r : Request) :
    (s.outstanding ≠ none →
      stepSession s .configChanged =
        ({ s with configVersion := s.configVersion + 1, pendingChange := true }, [])) ∧
    (∀ e, (stepSession s e).2.length ≤ 1) ∧
    (∀ p, s.outstanding = some p → r.responseNonce = p.nonce →
      r.hasErrorDetail = false →
      (stepSession s (.request r)).2.length = if s.pendingChange then 1 else 0) := by
  refine ⟨?_, ?_, ?_⟩
  · intro hout
    cases ho : s.outstanding with
    | none => exact absurd ho hout
    | some p => simp [stepSession, ho]
  · intro e
    cases e with
    | configChanged =>
      cases ho : s.outstanding with
      | none => simp [stepSession, ho, sendPush]
      | some p => simp [stepSession, ho]
    | request r' =>
      cases ho : s.outstanding with
      | some p =>
        simp only [stepSession, ho]
        split_ifs <;> simp [sendPush]
      | none =>
        simp only [stepSession, ho]
        split_ifs <;> simp [sendPush]
  · intro p ho hn he
    simp only [stepSession, ho, hn, he, if_pos rfl]
    cases hp : s.pendingChange <;> simp [sendPush, hp]

/-- Witness for C6: with push (version `"5"`, nonce `"2"`) outstanding, a
configuration change sends nothing; the ACK `nonce="2"` sends exactly one
push when a change is pending and zero when none is. -/
theorem session_flow_control_witness :
    (stepSession ⟨none, some ⟨"5", "2"⟩, true, 5, 2, 0⟩ .configChanged =
      (⟨none, some ⟨"5", "2"⟩, true, 6, 2, 0⟩, [])) ∧
    ((stepSession ⟨none, some ⟨"5", "2"⟩, true, 5, 2, 0⟩
        (.request ⟨"2", "5", false⟩)).2.length = 1) ∧
    ((stepSession ⟨none, some ⟨"5", "2"⟩, false, 5, 2, 0⟩
        (.request ⟨"2", "5", false⟩)).2.length = 0) := by
  refine ⟨?_, ?_, ?_⟩
  · have h := (session_flow_control ⟨none, some ⟨"5", "2"⟩, true, 5, 2, 0⟩
      ⟨"2", "5", false⟩).1 (by decide)
    rw [h]
  · have h := (session_flow_control ⟨none, some ⟨"5", "2"⟩, true, 5, 2, 0⟩
      ⟨"2", "5", false⟩).2.2 ⟨"5", "2"⟩ rfl rfl rfl
    rw [h]
    decide
  · have h := (session_flow_control ⟨none, some ⟨"5", "2"⟩, false, 5, 2, 0⟩
      ⟨"2", "5", false⟩).2.2 ⟨"5", "2"⟩ rfl rfl rfl
    rw [h]
    decide

end Ads

namespace Configdump

/-! ## Config-dump lemmas -/

theorem charListLt_asymm (x y : List Char) (h : charListLt x y = true) :
    charListLt y x = false := by
  induction x generalizing y with
  | nil =>
    cases y with
    | nil => simp [charListLt] at h
    | cons b bs => simp [charListLt]
  | cons a as ih =>
    cases y with
    | nil => simp [charListLt] at h
    | cons b bs =>
      simp only [charListLt] at h ⊢
      by_cases hab : a < b
      · simp [hab, lt_asymm hab]
      · by_cases hba : b < a
        · simp [hab, hba] at h
        · rw [if_neg hab, if_neg hba] at h
          rw [if_neg hba, if_neg hab]
          exact ih bs h

theorem charListLt_trans (x y z : List Char) (hxy : charListLt x y = true)
    (hyz : charListLt y z = true) : charListLt x z = true := by
  induction x generalizing y z with
  | nil =>
    cases z with
    | nil =>
      cases y with
      | nil => simp [charListLt] at hxy
      | cons b bs => simp [charListLt] at hyz
    | cons c cs => simp [charListLt]
  | cons a as ih =>
    cases y with
    | nil => simp [charListLt] at hxy
    | cons b bs =>
      cases z with
      | nil => simp [charListLt] at hyz
      | cons c cs =>
        simp only [charListLt] at hxy hyz ⊢
        rcases lt_trichotomy a b with hab | hab | hab
        · rcases lt_trichotomy b c with hbc | hbc | hbc
          · simp [lt_trans hab hbc]
          · subst hbc
            simp [hab]
          · simp [lt_asymm hbc, hbc] at hyz
        · subst hab
          rcases lt_trichotomy a c with hac | hac | hac
          · simp [hac]
          · subst hac
            simp only [lt_irrefl, if_false] at hxy hyz ⊢
            exact ih bs cs hxy hyz
          · simp [lt_asymm hac, hac] at hyz
        · simp [lt_asymm hab, hab] at hxy

theorem charListLt_eq_of_not (x y : List Char) (hxy : charListLt x y = false)
    (hyx : charListLt y x = false) : x = y := by
  induction x generalizing y with
  | nil =>
    cases y with
    | nil => rfl
    | cons b bs => simp [charListLt] at hxy
  | cons a as ih =>
    cases y with
    | nil => simp [charListLt] at hyx
    | cons b bs =>
      simp only [charListLt] at hxy hyx
      rcases lt_trichotomy a b with hab | hab | hab
      · simp [hab] at hxy
      · subst hab
        simp only [lt_irrefl, if_false] at hxy hyx
        rw [ih bs hxy hyx]
      · simp [hab] at hyx

theorem dumpLe_total (a b : DynamicCluster) : dumpLe a b ∨ dumpLe b a := by
  unfold dumpLe nameLe
  cases hx : strLt b.cluster.name a.cluster.name with
  | false => exact Or.inl rfl
  | true => exact Or.inr (charListLt_asymm _ _ hx)

theorem dumpLe_trans (a b c : DynamicCluster) (hab : dumpLe a b) (hbc : dumpLe b c) :
    dumpLe a c := by
  unfold dumpLe nameLe strLt at hab hbc ⊢
  cases hca : charListLt c.cluster.name.data a.cluster.name.data with
  | false => rfl
  | true =>
    cases hbcd : charListLt b.cluster.name.data c.cluster.name.data with
    | true => exact absurd (charListLt_trans _ _ _ hbcd hca) (by simp [hab])
    | false =>
      have heq := charListLt_eq_of_not _ _ hbcd hbc
      rw [← heq] at hca
      exact absurd hca (by simp [hab])

/-- Claim C10: `GetDynamicClusterDump` propagates errors, returns the
dynamic active clusters sorted ascending by cluster name, and — when asked
to strip versions — returns them with empty `VersionInfo` and no
`LastUpdated`, otherwise as they were. -/
theorem GetDynamicClusterDump_sorted (cd : ClustersConfigDump) (strip : Bool) :
    (∀ e, GetDynamicClusterDump (.error e) strip = .error e) ∧
    (∀ out, GetDynamicClusterDump (.ok cd) strip = .ok out →
      out.dynamicActiveClusters.Pairwise dumpLe ∧
      (strip = false → out.dynamicActiveClusters.Perm cd.dynamicActiveClusters) ∧
      (strip = true →
        out.dynamicActiveClusters.Perm (cd.dynamicActiveClusters.map stripVersionOf) ∧
        ∀ c ∈ out.dynamicActiveClusters, c.versionInfo = "" ∧ c.lastUpdated = none)) := by
  constructor
  · intro e
    rfl
  · intro out h
    have hsorted := @List.sorted_insertionSort _ dumpLe _ ⟨dumpLe_total⟩ ⟨dumpLe_trans⟩
      cd.dynamicActiveClusters
    have hperm := List.perm_insertionSort dumpLe cd.dynamicActiveClusters
    cases strip with
    | false =>
      have heq : GetDynamicClusterDump (.ok cd) false =
          .ok ⟨List.insertionSort dumpLe cd.dynamicActiveClusters⟩ := rfl
      rw [heq] at h
      injection h with h
      subst h
      exact ⟨hsorted, fun _ => hperm, fun hh => absurd hh (by decide)⟩
    | true =>
      have heq : GetDynamicClusterDump (.ok cd) true =
          .ok ⟨(List.insertionSort dumpLe cd.dynamicActiveClusters).map stripVersionOf⟩ := rfl
      rw [heq] at h
      injection h with h
      subst h
      refine ⟨List.Pairwise.map stripVersionOf (fun a b hab => hab) hsorted,
        fun hh => absurd hh (by decide), fun _ => ⟨hperm.map stripVersionOf, ?_⟩⟩
      intro c hc
      rcases List.mem_map.mp hc with ⟨c₀, _, rfl⟩
      exact ⟨rfl, rfl⟩

/-- Witness for C10: two out-of-order entries come back sorted by name with
versions and timestamps stripped. -/
theorem GetDynamicClusterDump_sorted_witness :
    (ClustersConfigDump.dynamicActiveClusters
        ⟨[⟨⟨"a", "y"⟩, "", none⟩, ⟨⟨"b", "x"⟩, "", none⟩]⟩).Pairwise dumpLe ∧
    (ClustersConfigDump.dynamicActiveClusters
        ⟨[⟨⟨"a", "y"⟩, "", none⟩, ⟨⟨"b", "x"⟩, "", none⟩]⟩).Perm
      ((ClustersConfigDump.dynamicActiveClusters
        ⟨[⟨⟨"b", "x"⟩, "v2", some 7⟩, ⟨⟨"a", "y"⟩, "v1", some 3⟩]⟩).map stripVersionOf) := by
  have h := (GetDynamicClusterDump_sorted
    ⟨[⟨⟨"b", "x"⟩, "v2", some 7⟩, ⟨⟨"a", "y"⟩, "v1", some 3⟩]⟩ true).2
    ⟨[⟨⟨"a", "y"⟩, "", none⟩, ⟨⟨"b", "x"⟩, "", none⟩]⟩ rfl
  exact ⟨h.1, (h.2.2 rfl).1⟩

end Configdump

end SpecProof
